import Mathlib

/-!
Verification of the incident-response / threat-detection core of the
cybersmartcity repository (src/frontend/src/utils/incidentResponse.js and
the threat-detection module it imports).

The JavaScript source is shallowly embedded: JS numbers are modelled as
`Option ℚ` (`none` standing for NaN, which also results from arithmetic on
`undefined`), JS `null`/`undefined` timestamps as `Option ℚ`, strings as
`String`, and dynamically-typed call sites that can raise a `TypeError`
return `Except JsError _`.  Wall-clock reads (`new Date()`, `Date.now()`)
and random draws (`Math.random()`) are threaded through as explicit
parameters.
-/

namespace CyberSmartCity

/-- A JavaScript runtime error raised by the embedded code. -/
inductive JsError where
  | typeError (msg : String)
deriving DecidableEq, Repr

/-- A JS number: `none` models NaN (including the NaN produced by
arithmetic on `undefined`). -/
abbrev JNum := Option ℚ

/-- JS addition: NaN propagates. -/
def jadd : JNum → JNum → JNum
  | some a, some b => some (a + b)
  | _, _ => none

/-- JS multiplication: NaN propagates. -/
def jmul : JNum → JNum → JNum
  | some a, some b => some (a * b)
  | _, _ => none

/-- JS subtraction: NaN propagates. -/
def jsub : JNum → JNum → JNum
  | some a, some b => some (a - b)
  | _, _ => none

/-- JS division.  The only zero-denominator division reachable in this
code is `0 / 0`, which is NaN in JS, so `none` is returned for a zero
denominator. -/
def jdiv : JNum → JNum → JNum
  | some a, some b => if b = 0 then none else some (a / b)
  | _, _ => none

/-- JS `Math.round`: half-up (toward positive infinity), NaN propagates. -/
def jround : JNum → JNum
  | some q => some ((⌊q + 1/2⌋ : ℤ) : ℚ)
  | none => none

/-- JS `Math.min`: NaN propagates. -/
def jmin : JNum → JNum → JNum
  | some a, some b => some (min a b)
  | _, _ => none

/-- JS `<=` on numbers: false whenever one side is NaN. -/
def jleB : JNum → JNum → Bool
  | some a, some b => decide (a ≤ b)
  | _, _ => false

/-- JS `>` on numbers: false whenever one side is NaN. -/
def jgtB : JNum → JNum → Bool
  | some a, some b => decide (b < a)
  | _, _ => false

/-- The millisecond value of `new Date(t)` for a stored timestamp.  A
missing timestamp (JS `undefined`) gives an invalid date, i.e. NaN; the
`null` case (which `new Date` maps to epoch 0) only occurs on plans
whose response never started, and no reachable report path subtracts a
`null` start time from a defined completion time, so it is also mapped
to NaN here. -/
def dateOf : Option ℚ → JNum
  | some t => some t
  | none => none

/-- Strict order on JS numbers, false (empty) when either side is NaN. -/
def JNum.jlt : JNum → JNum → Prop
  | some a, some b => a < b
  | _, _ => False

instance : ∀ x y : JNum, Decidable (JNum.jlt x y) := fun x y =>
  match x, y with
  | some a, some b => inferInstanceAs (Decidable (a < b))
  | some _, none => inferInstanceAs (Decidable False)
  | none, some _ => inferInstanceAs (Decidable False)
  | none, none => inferInstanceAs (Decidable False)

/-- JS string interpolation of a possibly-undefined value: `undefined`
prints as the string "undefined". -/
def optStr (s : Option String) : String := s.getD "undefined"

/-! ## Enumerations (the exported constant objects of the source) -/

namespace SEVERITY
def LOW := "low"
def MEDIUM := "medium"
def HIGH := "high"
def CRITICAL := "critical"
end SEVERITY

namespace THREAT_TYPES
def UNAUTHORIZED_ACCESS := "Unauthorized Access"
def DATA_MANIPULATION := "Data Manipulation"
def DENIAL_OF_SERVICE := "Denial of Service"
def MALWARE := "Malware Infection"
def RANSOMWARE := "Ransomware"
def FIRMWARE_TAMPERING := "Firmware Tampering"
def COMMUNICATION_HIJACKING := "Communication Hijacking"
def CREDENTIAL_THEFT := "Credential Theft"
def PHYSICAL_TAMPERING := "Physical Tampering"
def SOCIAL_ENGINEERING := "Social Engineering"
end THREAT_TYPES

namespace THREAT_STATUS
def NEW := "new"
def DETECTED := "detected"
end THREAT_STATUS

namespace RESPONSE_TEAMS
def TIER1 := "Tier 1 - Initial Response"
def TIER2 := "Tier 2 - Technical Response"
def TIER3 := "Tier 3 - Advanced Response"
def FORENSICS := "Digital Forensics Team"
def PHYSICAL := "Physical Security Team"
def MANAGEMENT := "Crisis Management Team"
end RESPONSE_TEAMS

namespace RESPONSE_PHASES
def IDENTIFICATION := "identification"
def CONTAINMENT := "containment"
def ERADICATION := "eradication"
def RECOVERY := "recovery"
def LESSONS_LEARNED := "lessons_learned"
end RESPONSE_PHASES

namespace RESPONSE_STATUS
def PENDING := "pending"
def IN_PROGRESS := "in_progress"
def COMPLETED := "completed"
def FAILED := "failed"
end RESPONSE_STATUS

/-- The five response phases, in the declaration order of the
`RESPONSE_PHASES` object (which fixes the JS key-iteration order). -/
inductive Phase where
  | identification
  | containment
  | eradication
  | recovery
  | lessons_learned
deriving DecidableEq, Repr, Fintype

/-- The object key of a phase, as produced by `Object.keys(RESPONSE_PHASES)`. -/
def Phase.key : Phase → String
  | .identification => "IDENTIFICATION"
  | .containment => "CONTAINMENT"
  | .eradication => "ERADICATION"
  | .recovery => "RECOVERY"
  | .lessons_learned => "LESSONS_LEARNED"

/-- The string value of a phase (the value stored in plan fields). -/
def Phase.val : Phase → String
  | .identification => RESPONSE_PHASES.IDENTIFICATION
  | .containment => RESPONSE_PHASES.CONTAINMENT
  | .eradication => RESPONSE_PHASES.ERADICATION
  | .recovery => RESPONSE_PHASES.RECOVERY
  | .lessons_learned => RESPONSE_PHASES.LESSONS_LEARNED

/-- The position of a phase in key-iteration order. -/
def Phase.idx : Phase → ℤ
  | .identification => 0
  | .containment => 1
  | .eradication => 2
  | .recovery => 3
  | .lessons_learned => 4

/-- The list of the five phases in key order. -/
def phaseList : List Phase :=
  [.identification, .containment, .eradication, .recovery, .lessons_learned]

/-- `Object.keys(RESPONSE_PHASES)`. -/
def phaseKeys : List String := phaseList.map Phase.key

/-- Recover a phase from its string value (`timeline[phase]` indexing). -/
def phaseOfVal (s : String) : Option Phase :=
  (phaseList.find? fun ph => ph.val = s)

/-- `RESPONSE_PHASES[phases[i]]` for an integer index, `undefined` (none)
outside the range 0..4. -/
def phaseValAt (i : ℤ) : Option String :=
  (phaseList.find? fun ph => ph.idx = i).map Phase.val

/-- JS `Array.prototype.indexOf` on a list of strings: first index or -1. -/
def jsIndexOf (l : List String) (s : String) : ℤ :=
  match l.indexOf? s with
  | some n => (n : ℤ)
  | none => -1

/-- JS `String.prototype.toUpperCase` on the ASCII phase names used
here. -/
def jsToUpper (s : String) : String := String.mk (s.data.map Char.toUpper)

/-! ## Timeline and plan data -/

/-- One entry of a response timeline: per-phase estimate, stamped times
and status, exactly the object built by `createResponseTimeline`. -/
structure PhaseEntry where
  estimatedDuration : JNum
  startTime : Option ℚ
  endTime : Option ℚ
  status : String
deriving DecidableEq, Repr

/-- A response timeline: the object keyed by the five phase values. -/
abbrev Timeline := Phase → PhaseEntry

/-- IEEE-754 round half to even to an integer (the default tie-breaking
rule of binary64 arithmetic). -/
def rhe (q : ℚ) : ℤ :=
  if q - ⌊q⌋ < 1/2 then ⌊q⌋
  else if 1/2 < q - ⌊q⌋ then ⌊q⌋ + 1
  else if 2 ∣ ⌊q⌋ then ⌊q⌋ else ⌊q⌋ + 1

/-- The exact value of the binary64 double nearest to `q` (round to
nearest, ties to even), for values in the normal finite range — every
number appearing in this module lies well inside it, so overflow and
subnormals need no cases.  The significand is the 53-bit integer
`rhe (q · 2^(52−e))` for `e = ⌊log₂ q⌋`. -/
def f64round (q : ℚ) : ℚ :=
  if q = 0 then 0
  else if q < 0 then
    -((rhe (-q * 2 ^ (52 - Int.log 2 (-q))) : ℚ) * 2 ^ (Int.log 2 (-q) - 52))
  else (rhe (q * 2 ^ (52 - Int.log 2 q)) : ℚ) * 2 ^ (Int.log 2 q - 52)

/-- JS multiplication on numbers: binary64 multiplication, i.e. the
exact product rounded to the nearest double; NaN propagates. -/
def f64mul : JNum → JNum → JNum
  | some a, some b => some (f64round (a * b))
  | _, _ => none

/-- Severity multiplier table of `createResponseTimeline`; lookup of any
other key (including `undefined`) yields `undefined`, modelled as NaN.
The literal `0.7` denotes the binary64 double nearest to 7/10; the
other entries are exactly representable. -/
def severityMultiplier (severity : Option String) : JNum :=
  if severity = some SEVERITY.LOW then some (f64round (7/10))
  else if severity = some SEVERITY.MEDIUM then some 1
  else if severity = some SEVERITY.HIGH then some (3/2)
  else if severity = some SEVERITY.CRITICAL then some 2
  else none

/-- `createResponseTimeline(threatType, severity)` from the source.  The
arguments are `Option String` because one call site
(`createResponsePlan`) invokes it with no arguments at all, i.e. with
both parameters `undefined`.  All arithmetic is binary64: the decimal
literals 1.3, 1.2 and 1.1 denote the nearest doubles (`f64round` of the
exact decimals); 15, 30, 45, 60, 1.5 and 2.0 are exactly
representable. -/
def createResponseTimeline (threatType severity : Option String) : Timeline :=
  let identificationTime : JNum := some 15
  let containmentTime : JNum := some 30
  let eradicationTime : JNum := some 45
  let recoveryTime : JNum := some 30
  let lessonsLearnedTime : JNum := some 60
  let multiplier := severityMultiplier severity
  -- threat-type adjustments, applied before the severity multiplier
  let adjusted :=
    if threatType = some THREAT_TYPES.RANSOMWARE ∨ threatType = some THREAT_TYPES.MALWARE then
      (identificationTime, f64mul eradicationTime (some (3/2)), f64mul recoveryTime (some (3/2)))
    else if threatType = some THREAT_TYPES.FIRMWARE_TAMPERING then
      (identificationTime, f64mul eradicationTime (some (f64round (13/10))),
        f64mul recoveryTime (some (f64round (6/5))))
    else if threatType = some THREAT_TYPES.DATA_MANIPULATION then
      (f64mul identificationTime (some (f64round (6/5))),
        f64mul eradicationTime (some (f64round (11/10))), recoveryTime)
    else
      (identificationTime, eradicationTime, recoveryTime)
  let identificationTime := jround (f64mul adjusted.1 multiplier)
  let containmentTime := jround (f64mul containmentTime multiplier)
  let eradicationTime := jround (f64mul adjusted.2.1 multiplier)
  let recoveryTime := jround (f64mul adjusted.2.2 multiplier)
  let lessonsLearnedTime := jround (f64mul lessonsLearnedTime multiplier)
  fun ph =>
    match ph with
    | .identification =>
        ⟨identificationTime, none, none, RESPONSE_STATUS.PENDING⟩
    | .containment =>
        ⟨containmentTime, none, none, RESPONSE_STATUS.PENDING⟩
    | .eradication =>
        ⟨eradicationTime, none, none, RESPONSE_STATUS.PENDING⟩
    | .recovery =>
        ⟨recoveryTime, none, none, RESPONSE_STATUS.PENDING⟩
    | .lessons_learned =>
        ⟨lessonsLearnedTime, none, none, RESPONSE_STATUS.PENDING⟩

/-- `calculateEstimatedCompletionTime(timeline)`: reduce over
`Object.values(timeline)` starting from 0, adding `estimatedDuration`. -/
def calculateEstimatedCompletionTime (timeline : Timeline) : JNum :=
  phaseList.foldl (fun total ph => jadd total (timeline ph).estimatedDuration) (some 0)

/-- A note appended to a plan's notes log. -/
structure Note where
  timestamp : ℚ
  author : String
  content : String
deriving DecidableEq, Repr

/-- A response step as built by `generateResponseSteps`. -/
structure Step where
  id : String
  description : String
  phase : String
  assignedTeam : String
  status : String
  estimatedDuration : JNum
  startTime : Option ℚ
  endTime : Option ℚ
  notes : List Note
deriving DecidableEq, Repr

/-- A generated team member (`generateTeamMembers`). -/
structure Member where
  id : String
  name : String
  role : String
  expertise : ℚ
  availability : String
deriving DecidableEq, Repr

/-- A response team (`createResponseTeam`).  `specialties` holds possibly
`undefined` entries because `createResponsePlan` passes
`[threatAlert.type]`, and a hand-made alert may lack a `type` field. -/
structure ResponseTeam where
  id : String
  name : String
  specialties : List (Option String)
  members : List Member
  availability : String
  currentAssignments : ℕ
  responseTime : ℚ
deriving DecidableEq, Repr

/-- The `Math.random()` draws and random id suffix consumed when one team
member is generated. -/
structure MemberRand where
  idSuffix : String
  firstR : ℚ
  lastR : ℚ
  roleR : ℚ
  availR : ℚ
  expR : ℚ

/-- The randomness consumed by `createResponseTeam`. -/
structure TeamRand where
  idSuffix : String
  countR : ℚ
  memberR : ℕ → MemberRand
  respR : ℚ

def firstNames : List String :=
  ["Alex", "Jordan", "Taylor", "Morgan", "Casey", "Riley", "Avery", "Quinn", "Skyler", "Dakota"]

def lastNames : List String :=
  ["Smith", "Johnson", "Williams", "Brown", "Jones", "Garcia", "Miller", "Davis", "Rodriguez", "Martinez"]

def memberRoles : List String :=
  ["Analyst", "Engineer", "Specialist", "Technician", "Coordinator", "Lead"]

/-- JS `list[Math.floor(r * list.length)]`; an out-of-range index yields
`undefined`, which a template literal prints as "undefined". -/
def randPick (l : List String) (r : ℚ) : String :=
  l.getD (Int.toNat ⌊r * l.length⌋) "undefined"

/-- `generateTeamMembers(count)` with its random draws made explicit. -/
def generateTeamMembers (count : ℕ) (mr : ℕ → MemberRand) : List Member :=
  (List.range count).map fun i =>
    let m := mr i
    { id := "member-" ++ m.idSuffix
      name := randPick firstNames m.firstR ++ " " ++ randPick lastNames m.lastR
      role := randPick memberRoles m.roleR
      expertise := (⌊m.expR * 5⌋ : ℤ) + 1
      availability := if m.availR > 1/5 then "available" else "busy" }

/-- `createResponseTeam(name, specialties)` with its random draws made
explicit. -/
def createResponseTeam (name : String) (specialties : List (Option String))
    (tr : TeamRand) : ResponseTeam :=
  { id := "team-" ++ tr.idSuffix
    name := name
    specialties := specialties
    members := generateTeamMembers (Int.toNat (3 + ⌊tr.countR * 3⌋)) tr.memberR
    availability := "available"
    currentAssignments := 0
    responseTime := 5 + (⌊tr.respR * 10⌋ : ℤ) }

/-! ## `generateResponseSteps` and its dynamically-typed call sites

The source defines `generateResponseSteps(recommendedActions, timeline)`,
which calls `recommendedActions.forEach(...)` and indexes
`timeline[phase].estimatedDuration`.  Neither call site passes an array:
`initiateResponse` passes the incident-type string (plus two extra
arguments that the two-parameter function discards) and
`createResponsePlan` passes the whole threat-alert object with no second
argument.  The argument type `JVal` captures the values that actually
flow into the two parameters, and the result is `Except JsError _`
because `.forEach` on a non-array and property access on `undefined`
throw `TypeError`. -/

/-- The affected device, as read by the classifier. -/
structure Device where
  id : String
  name : String
  type : String
deriving DecidableEq, Repr

/-- A threat alert.  The fields are those assembled by
`generateThreatAlert`; `type` is `Option String` because
`generateThreatAlert` does not set it (it is read by
`createResponsePlan`, so only hand-written alert objects can make it
defined). -/
structure ThreatAlert where
  id : String
  deviceId : String
  deviceName : String
  deviceType : String
  threatType : Option String
  type : Option String
  severity : String
  confidence : ℚ
  description : String
  timestamp : ℚ
  status : String
  recommendedActions : List String
  affectedSystems : List String
  potentialImpact : String
  riskScore : ℚ
  mitigationStatus : String
  assignedTo : Option String
  relatedAlerts : List String
deriving DecidableEq, Repr

/-- The JS values that reach the parameters of `generateResponseSteps`
at its call sites. -/
inductive JVal where
  | undef
  | str (s : String)
  | alertObj (a : ThreatAlert)
  | actions (xs : List String)
  | tl (t : Timeline)

/-- Action-to-phase table of `generateResponseSteps`. -/
def phaseMap : String → Option String := fun action =>
  [("Isolate affected device from network", RESPONSE_PHASES.CONTAINMENT),
   ("Capture current device state for forensic analysis", RESPONSE_PHASES.IDENTIFICATION),
   ("Reset all access credentials", RESPONSE_PHASES.ERADICATION),
   ("Review access logs for suspicious patterns", RESPONSE_PHASES.IDENTIFICATION),
   ("Implement additional authentication measures", RESPONSE_PHASES.RECOVERY),
   ("Restore data from last known good backup", RESPONSE_PHASES.RECOVERY),
   ("Verify data integrity across connected systems", RESPONSE_PHASES.RECOVERY),
   ("Manually verify sensor readings with physical inspection", RESPONSE_PHASES.IDENTIFICATION),
   ("Reflash device with verified firmware", RESPONSE_PHASES.ERADICATION),
   ("Implement firmware signature verification", RESPONSE_PHASES.RECOVERY),
   ("Deploy anti-malware countermeasures", RESPONSE_PHASES.ERADICATION),
   ("Scan connected systems for infection spread", RESPONSE_PHASES.CONTAINMENT),
   ("Activate incident response team", RESPONSE_PHASES.IDENTIFICATION),
   ("Notify city emergency response coordinator", RESPONSE_PHASES.IDENTIFICATION),
   ("Prepare public communication if services are affected", RESPONSE_PHASES.CONTAINMENT),
   ("Switch to manual traffic control if necessary", RESPONSE_PHASES.CONTAINMENT),
   ("Review recorded footage for evidence of tampering", RESPONSE_PHASES.IDENTIFICATION)].lookup action

/-- Action-to-team table of `generateResponseSteps`. -/
def teamMap : String → Option String := fun action =>
  [("Isolate affected device from network", RESPONSE_TEAMS.TIER1),
   ("Capture current device state for forensic analysis", RESPONSE_TEAMS.FORENSICS),
   ("Reset all access credentials", RESPONSE_TEAMS.TIER2),
   ("Review access logs for suspicious patterns", RESPONSE_TEAMS.TIER2),
   ("Implement additional authentication measures", RESPONSE_TEAMS.TIER3),
   ("Restore data from last known good backup", RESPONSE_TEAMS.TIER2),
   ("Verify data integrity across connected systems", RESPONSE_TEAMS.TIER2),
   ("Manually verify sensor readings with physical inspection", RESPONSE_TEAMS.PHYSICAL),
   ("Reflash device with verified firmware", RESPONSE_TEAMS.TIER3),
   ("Implement firmware signature verification", RESPONSE_TEAMS.TIER3),
   ("Deploy anti-malware countermeasures", RESPONSE_TEAMS.TIER2),
   ("Scan connected systems for infection spread", RESPONSE_TEAMS.TIER2),
   ("Activate incident response team", RESPONSE_TEAMS.MANAGEMENT),
   ("Notify city emergency response coordinator", RESPONSE_TEAMS.MANAGEMENT),
   ("Prepare public communication if services are affected", RESPONSE_TEAMS.MANAGEMENT),
   ("Switch to manual traffic control if necessary", RESPONSE_TEAMS.PHYSICAL),
   ("Review recorded footage for evidence of tampering", RESPONSE_TEAMS.FORENSICS)].lookup action

/-- `timeline[phaseName].estimatedDuration`-style access: throws a
`TypeError` unless `timeline` is an actual timeline object holding the
phase key. -/
def getEntryJs (timeline : JVal) (phaseName : String) : Except JsError PhaseEntry :=
  match timeline with
  | .tl t =>
      match phaseOfVal phaseName with
      | some ph => .ok (t ph)
      | none => .error (.typeError "Cannot read properties of undefined (reading estimatedDuration)")
  | _ => .error (.typeError "Cannot read properties of undefined (reading estimatedDuration)")

/-- `generateResponseSteps(recommendedActions, timeline)` from the
source: iterates `recommendedActions.forEach`, mapping each action to a
phase and a team (defaulting to containment / Tier 1), then appends the
lessons-learned documentation step.  A non-array first argument makes
the `.forEach` call throw. -/
def generateResponseSteps (recommendedActions timeline : JVal) :
    Except JsError (List Step) :=
  match recommendedActions with
  | .actions xs => do
      let steps ← xs.enum.mapM fun p => do
        let index := p.1
        let action := p.2
        let phase := (phaseMap action).getD RESPONSE_PHASES.CONTAINMENT
        let team := (teamMap action).getD RESPONSE_TEAMS.TIER1
        let entry ← getEntryJs timeline phase
        pure { id := "step-" ++ toString (index + 1)
               description := action
               phase := phase
               assignedTeam := team
               status := RESPONSE_STATUS.PENDING
               estimatedDuration := jround (jdiv entry.estimatedDuration (some 3))
               startTime := none
               endTime := none
               notes := [] : Step }
      let lentry ← getEntryJs timeline RESPONSE_PHASES.LESSONS_LEARNED
      pure (steps ++
        [{ id := "step-" ++ toString (xs.length + 1)
           description := "Document incident and update response procedures"
           phase := RESPONSE_PHASES.LESSONS_LEARNED
           assignedTeam := RESPONSE_TEAMS.MANAGEMENT
           status := RESPONSE_STATUS.PENDING
           estimatedDuration := lentry.estimatedDuration
           startTime := none
           endTime := none
           notes := [] }])
  | _ => .error (.typeError "recommendedActions.forEach is not a function")

/-! ## The response plan and its state-machine operations -/

/-- The full report object built by `generateResponseReport` for a
completed plan. -/
structure FullReport where
  incidentId : String
  deviceId : Option String
  deviceName : Option String
  threatType : Option String
  severity : Option String
  startTime : Option ℚ
  completionTime : Option ℚ
  totalResponseTimeMinutes : JNum
  estimatedTimeMinutes : JNum
  withinEstimatedTime : Bool
  timeVariance : JNum
  phaseDurations : Phase → JNum
  teamsInvolved : Option (List String)
  stepsCompleted : ℕ
  totalSteps : ℕ
  notes : List Note
  recommendations : List String

/-- The value returned by `generateResponseReport`: either the
"Incomplete" stub or the full report. -/
inductive ResponseReport where
  | incompleteStub (incidentId : String) (message : String) (completionPercentage : JNum)
  | completedReport (r : FullReport)

/-- The `status` field of a generated report. -/
def ResponseReport.status : ResponseReport → String
  | .incompleteStub _ _ _ => "Incomplete"
  | .completedReport _ => "Completed"

/-- The `incidentId` field of a generated report. -/
def ResponseReport.incidentId : ResponseReport → String
  | .incompleteStub i _ _ => i
  | .completedReport r => r.incidentId

/-- A response plan, the shape assembled by `initiateResponse` and
consumed by the state-machine operations.  Fields that
`initiateResponse` leaves unset (`deviceId`, `deviceName`, `threatType`,
`assignedTeams`, `actualCompletionTime`, `currentPhase`) are `Option`s
whose `none` models JS `undefined`; `startTime` and `endTime` use `none`
for `null`. -/
structure ResponsePlan where
  id : String
  incidentId : String
  incidentType : Option String
  severity : Option String
  affectedSystems : List String
  responseTeam : Option ResponseTeam
  status : String
  phase : String
  currentPhase : Option String
  timeline : Timeline
  responseSteps : List Step
  startTime : Option ℚ
  estimatedCompletionTime : JNum
  endTime : Option ℚ
  actualCompletionTime : Option ℚ
  description : Option String
  notes : List Note
  report : Option ResponseReport
  deviceId : Option String
  deviceName : Option String
  threatType : Option String
  assignedTeams : Option (List String)

/-- The argument object of `initiateResponse`. -/
structure IncidentData where
  incidentId : String
  incidentType : String
  severity : String
  affectedSystems : List String
  responseTeam : Option ResponseTeam
  startTime : Option ℚ
  description : Option String

/-- `initiateResponse(incidentData)` from the source.  Note the call
`generateResponseSteps(incidentType, severity, affectedSystems)`: the
two-parameter callee receives the incident-type string as
`recommendedActions` and the severity string as `timeline` (the third
argument is discarded), so the `.forEach` call inside throws for every
input.  `rid` models the random response id and `now` the wall clock. -/
def initiateResponse (incidentData : IncidentData) (rid : String) (now : ℚ) :
    Except JsError ResponsePlan := do
  let timeline := createResponseTimeline (some incidentData.incidentType)
    (some incidentData.severity)
  let responseSteps ← generateResponseSteps (.str incidentData.incidentType)
    (.str incidentData.severity)
  pure
    { id := rid
      incidentId := incidentData.incidentId
      incidentType := some incidentData.incidentType
      severity := some incidentData.severity
      affectedSystems := incidentData.affectedSystems
      responseTeam := incidentData.responseTeam
      status := RESPONSE_STATUS.IN_PROGRESS
      phase := RESPONSE_PHASES.IDENTIFICATION
      currentPhase := none
      timeline := timeline
      responseSteps := responseSteps
      startTime := some (incidentData.startTime.getD now)
      estimatedCompletionTime := calculateEstimatedCompletionTime timeline
      endTime := none
      actualCompletionTime := none
      description := incidentData.description
      notes := []
      report := none
      deviceId := none
      deviceName := none
      threatType := none
      assignedTeams := none }

/-- The object literal returned by `createResponsePlan`.  Its field set
differs from `ResponsePlan`: the steps live under `steps`, there are no
`responseSteps`/`notes` fields, and `estimatedCompletionTime` is a
timestamp one hour from now, not a minute total. -/
structure CreatedPlan where
  id : String
  incidentId : String
  incidentType : Option String
  severity : String
  affectedSystems : List String
  responseTeam : ResponseTeam
  status : String
  phase : String
  timeline : Timeline
  steps : List Step
  startTime : ℚ
  estimatedCompletionTime : ℚ

/-- `createResponsePlan(threatAlert)` from the source.  It calls
`createResponseTimeline()` with no arguments and
`generateResponseSteps(threatAlert)` with the alert object as the
actions array and no timeline, so the latter throws for every alert. -/
def createResponsePlan (threatAlert : ThreatAlert) (tr : TeamRand)
    (rid : String) (now : ℚ) : Except JsError CreatedPlan :=
  let responseTeam := createResponseTeam
    (if threatAlert.type = some "network" then "Network Security"
     else if threatAlert.type = some "device" then "Endpoint Protection"
     else if threatAlert.type = some "data" then "Data Security"
     else if threatAlert.type = some "infrastructure" then "Infrastructure"
     else "IoT Security")
    [threatAlert.type] tr
  match generateResponseSteps (.alertObj threatAlert) .undef with
  | .error e => .error e
  | .ok steps =>
      .ok
        { id := rid
          incidentId := threatAlert.id
          incidentType := threatAlert.type
          severity := threatAlert.severity
          affectedSystems := threatAlert.affectedSystems
          responseTeam := responseTeam
          status := RESPONSE_STATUS.IN_PROGRESS
          phase := RESPONSE_PHASES.IDENTIFICATION
          timeline := createResponseTimeline none none
          steps := steps
          startTime := now
          estimatedCompletionTime := now + 3600000 }

/-- `startResponse(responsePlan)`: marks the plan and the identification
phase (and its steps) in progress, stamping start times
unconditionally, and appends a system note. -/
def startResponse (now : ℚ) (p : ResponsePlan) : ResponsePlan :=
  { p with
    status := RESPONSE_STATUS.IN_PROGRESS
    startTime := some now
    timeline := fun ph =>
      if ph = .identification then
        { p.timeline .identification with
          status := RESPONSE_STATUS.IN_PROGRESS
          startTime := some now }
      else p.timeline ph
    responseSteps := p.responseSteps.map fun s =>
      if s.phase = RESPONSE_PHASES.IDENTIFICATION then
        { s with status := RESPONSE_STATUS.IN_PROGRESS, startTime := some now }
      else s
    notes := p.notes ++
      [⟨now, "System", "Incident response initiated. Identification phase started."⟩] }

/-- The phase index computed by `simulateResponseProgress`:
`Math.floor(pct / 100 * phases.length)` clamped to `phases.length - 1`. -/
def progressPhaseIndex (pct : ℚ) : ℤ :=
  if (⌊pct / 100 * 5⌋ : ℤ) ≥ 5 then 4 else ⌊pct / 100 * 5⌋

/-- The phase-loop body of `simulateResponseProgress` applied to one
timeline entry. -/
def progressEntry (now : ℚ) (pct : ℚ) (idx : ℤ) (ph : Phase) (e : PhaseEntry) :
    PhaseEntry :=
  if ph.idx ≤ idx then
    if ph.idx = idx ∧ pct < 100 then
      { e with status := RESPONSE_STATUS.IN_PROGRESS
               startTime := some (e.startTime.getD now) }
    else
      { e with status := RESPONSE_STATUS.COMPLETED
               startTime := some (e.startTime.getD now)
               endTime := some (e.endTime.getD now) }
  else e

/-- The step-loop body of `simulateResponseProgress` applied to one step;
`stepPhaseIndex` is `phases.indexOf(step.phase.toUpperCase())`. -/
def progressStep (now : ℚ) (pct : ℚ) (idx : ℤ) (s : Step) : Step :=
  let stepPhaseIndex := jsIndexOf phaseKeys (jsToUpper s.phase)
  if stepPhaseIndex < idx then
    { s with status := RESPONSE_STATUS.COMPLETED
             startTime := some (s.startTime.getD now)
             endTime := some (s.endTime.getD now) }
  else if stepPhaseIndex = idx then
    if pct = 100 then
      { s with status := RESPONSE_STATUS.COMPLETED
               startTime := some (s.startTime.getD now)
               endTime := some (s.endTime.getD now) }
    else
      { s with status := RESPONSE_STATUS.IN_PROGRESS
               startTime := some (s.startTime.getD now) }
  else s

/-- `simulateResponseProgress(responsePlan, progressPercentage)` from the
source: a no-op on plans without a start time or already completed;
otherwise completes every phase before the derived index, marks the
indexed phase in progress (completed at 100), updates steps to match,
and at 100 or more completes the plan and stamps
`actualCompletionTime`. -/
def simulateResponseProgress (now : ℚ) (p : ResponsePlan) (pct : ℚ) :
    ResponsePlan :=
  if p.startTime = none ∨ p.status = RESPONSE_STATUS.COMPLETED then p
  else
    let idx := progressPhaseIndex pct
    let currentPhase := phaseValAt idx
    let timeline := fun ph => progressEntry now pct idx ph (p.timeline ph)
    let responseSteps := p.responseSteps.map (progressStep now pct idx)
    if pct ≥ 100 then
      { p with
        currentPhase := currentPhase
        timeline := timeline
        responseSteps := responseSteps
        status := RESPONSE_STATUS.COMPLETED
        actualCompletionTime := some now
        notes := p.notes ++
          [⟨now, "System", "Incident response completed successfully. All phases finished."⟩] }
    else
      { p with
        currentPhase := currentPhase
        timeline := timeline
        responseSteps := responseSteps
        notes := p.notes ++
          [⟨now, "System",
            "Response progress at " ++ toString pct ++ "%. Current phase: " ++
              optStr currentPhase ++ "."⟩] }

/-- `updateResponsePhase(response, newPhase, notes)`: direct phase
override; completes the plan when moving to lessons learned; never
touches the timeline. -/
def updateResponsePhase (now : ℚ) (resp : ResponsePlan) (newPhase : String)
    (notes : Option String) : ResponsePlan :=
  let r :=
    { resp with
      phase := newPhase
      status :=
        if newPhase = RESPONSE_PHASES.LESSONS_LEARNED then RESPONSE_STATUS.COMPLETED
        else resp.status
      notes := resp.notes ++ [⟨now, "System", "Response phase updated to: " ++ newPhase⟩] }
  match notes with
  | some n => { r with notes := r.notes ++ [⟨now, "Responder", n⟩] }
  | none => r

/-- `calculateCompletionPercentage(responsePlan)` from the source; with
no steps the division is `0 / 0`, NaN. -/
def calculateCompletionPercentage (p : ResponsePlan) : JNum :=
  if p.status = RESPONSE_STATUS.COMPLETED then some 100
  else if p.status = RESPONSE_STATUS.PENDING then some 0
  else
    let completedSteps :=
      (p.responseSteps.filter fun s => s.status = RESPONSE_STATUS.COMPLETED).length
    jround (jmul (jdiv (some completedSteps) (some p.responseSteps.length)) (some 100))

/-- `generateRecommendations(responsePlan)` from the source. -/
def generateRecommendations (p : ResponsePlan) : List String :=
  let timeRecs :=
    match p.actualCompletionTime with
    | some e =>
        let totalResponseTimeMinutes :=
          jround (jdiv (jsub (some e) (dateOf p.startTime)) (some 60000))
        if jgtB totalResponseTimeMinutes p.estimatedCompletionTime then
          ["Response took longer than estimated. Consider reviewing team allocation and procedures."]
        else []
    | none => []
  let typeRecs :=
    if p.threatType = some THREAT_TYPES.UNAUTHORIZED_ACCESS then
      ["Implement stronger authentication mechanisms across similar devices.",
       "Review access control policies and procedures."]
    else if p.threatType = some THREAT_TYPES.DATA_MANIPULATION then
      ["Implement data integrity verification mechanisms.",
       "Consider blockchain or cryptographic solutions for critical data."]
    else if p.threatType = some THREAT_TYPES.FIRMWARE_TAMPERING then
      ["Implement secure boot and firmware signature verification.",
       "Establish regular firmware update and verification schedule."]
    else if p.threatType = some THREAT_TYPES.MALWARE ∨
        p.threatType = some THREAT_TYPES.RANSOMWARE then
      ["Enhance endpoint protection on all connected devices.",
       "Implement network segmentation to limit lateral movement."]
    else
      ["Review security posture of similar devices in the network."]
  timeRecs ++ typeRecs ++
    ["Conduct training exercises for similar scenarios.",
     "Update incident response playbooks based on lessons learned."]

/-- `generateResponseReport(plan)` from the source: returns the
"Incomplete" stub unless the plan status is `completed`, otherwise the
full metrics report. -/
def generateResponseReport (p : ResponsePlan) : ResponseReport :=
  if p.status ≠ RESPONSE_STATUS.COMPLETED then
    .incompleteStub p.incidentId "Cannot generate report for incomplete response"
      (calculateCompletionPercentage p)
  else
    let startTime := dateOf p.startTime
    let endTime := dateOf p.actualCompletionTime
    let totalResponseTimeMinutes := jround (jdiv (jsub endTime startTime) (some 60000))
    let phaseDurations : Phase → JNum := fun ph =>
      match (p.timeline ph).startTime, (p.timeline ph).endTime with
      | some s, some e => jround (some ((e - s) / 60000))
      | _, _ => some 0
    .completedReport
      { incidentId := p.incidentId
        deviceId := p.deviceId
        deviceName := p.deviceName
        threatType := p.threatType
        severity := p.severity
        startTime := p.startTime
        completionTime := p.actualCompletionTime
        totalResponseTimeMinutes := totalResponseTimeMinutes
        estimatedTimeMinutes := p.estimatedCompletionTime
        withinEstimatedTime := jleB totalResponseTimeMinutes p.estimatedCompletionTime
        timeVariance := jsub p.estimatedCompletionTime totalResponseTimeMinutes
        phaseDurations := phaseDurations
        teamsInvolved := p.assignedTeams
        stepsCompleted :=
          (p.responseSteps.filter fun s => s.status = RESPONSE_STATUS.COMPLETED).length
        totalSteps := p.responseSteps.length
        notes := p.notes
        recommendations := generateRecommendations p }

/-! ## The AI threat-detection module -/

/-- The analysis record produced by `analyzeDeviceBehavior`. -/
structure AnomalyData where
  deviceId : String
  anomalyScore : ℚ
  patterns : List String
  timestamp : ℚ
  isAnomaly : Bool
deriving DecidableEq, Repr

/-- `analyzeDeviceBehavior(device, historicalData)` with the single
`Math.random()` draw `a` made explicit; `historicalData` defaults to an
empty array and is never read, so it is omitted. -/
def analyzeDeviceBehavior (device : Device) (a : ℚ) (now : ℚ) : AnomalyData :=
  let patterns : List String :=
    if device.type = "camera" ∧ a > 7/10 then
      ["Unusual access pattern", "Irregular data transmission"]
    else if device.type = "trafficLight" ∧ a > 4/5 then
      ["Signal timing manipulation", "Unexpected configuration changes"]
    else if device.type = "waterSensor" ∧ a > 3/4 then
      ["Reading fluctuation outside normal parameters", "Calibration drift"]
    else if a > 9/10 then
      ["Communication protocol violation", "Unexpected firmware behavior"]
    else []
  { deviceId := device.id
    anomalyScore := a
    patterns := patterns
    timestamp := now
    isAnomaly := a > 7/10 }

/-- The `behavior` argument of `classifyThreat`, as far as it is read:
only the `anomalyScore` member is accessed.  `anomalyScore = none`
models a record without that member (or with a NaN score); passing
`none` for the whole argument models JS `null`/`undefined`. -/
structure BehaviorArg where
  anomalyScore : Option ℚ
deriving DecidableEq, Repr

/-- The classified threat returned by `classifyThreat`.  Its threat-type
field is named `type`, exactly as in the source. -/
structure ClassifiedThreat where
  type : String
  severity : String
  confidence : ℚ
  impactLevel : String
  description : String
  recommendedActions : List String
  timestamp : ℚ
  status : String
deriving DecidableEq, Repr

/-- The default recommended actions of `classifyThreat` for an unknown
threat type. -/
def defaultClassifierActions : List String :=
  ["Monitor system activity", "Backup critical data", "Review security logs",
   "Prepare for escalation if needed"]

/-- The default description of `classifyThreat` for an unknown threat
type. -/
def defaultClassifierDescription : String :=
  "Unknown threat type detected with suspicious behavior"

/-- `classifyThreat(threatType, severity, behavior)` from the source.
The confidence guard is `behavior && behavior.anomalyScore`, a JS
truthiness test: a zero (or NaN, or missing) anomaly score leaves the
default confidence 0.7. -/
def classifyThreat (threatType severity : String) (behavior : Option BehaviorArg)
    (now : ℚ) : ClassifiedThreat :=
  let confidence : ℚ :=
    match behavior with
    | some b =>
        match b.anomalyScore with
        | some a => if a = 0 then 7/10 else 1/2 + a * (2/5)
        | none => 7/10
    | none => 7/10
  let impactLevel :=
    if severity = SEVERITY.CRITICAL then "severe"
    else if severity = SEVERITY.HIGH then "significant"
    else if severity = SEVERITY.MEDIUM then "moderate"
    else if severity = SEVERITY.LOW then "minor"
    else "unknown"
  let descActions : String × List String :=
    if threatType = THREAT_TYPES.UNAUTHORIZED_ACCESS then
      ("Unauthorized access attempt detected with unusual authentication patterns",
       ["Lock affected accounts", "Force password reset", "Review access logs",
        "Enable additional authentication factors"])
    else if threatType = THREAT_TYPES.DATA_MANIPULATION then
      ("Abnormal data modification detected outside of expected parameters",
       ["Restore from backup", "Verify data integrity", "Audit recent changes",
        "Implement additional validation checks"])
    else if threatType = THREAT_TYPES.FIRMWARE_TAMPERING then
      ("Unauthorized firmware modifications or configuration changes detected",
       ["Restore original firmware", "Isolate affected device", "Scan for malicious code",
        "Update security patches"])
    else if threatType = THREAT_TYPES.COMMUNICATION_HIJACKING then
      ("Abnormal communication patterns indicating potential hijacking",
       ["Isolate affected systems", "Reset communication channels",
        "Implement additional encryption", "Monitor for unusual traffic patterns"])
    else if threatType = THREAT_TYPES.MALWARE then
      ("Malicious software detected with abnormal system behavior",
       ["Isolate affected systems", "Run full system scan", "Remove identified malware",
        "Update antivirus definitions"])
    else if threatType = THREAT_TYPES.RANSOMWARE then
      ("Potential ransomware activity with file encryption patterns",
       ["Disconnect from network immediately", "Isolate affected systems",
        "Restore from clean backups", "Report to authorities"])
    else if threatType = THREAT_TYPES.DENIAL_OF_SERVICE then
      ("Abnormal traffic patterns indicating potential DoS attack",
       ["Implement traffic filtering", "Scale resources if possible",
        "Contact network provider", "Analyze traffic patterns"])
    else if threatType = THREAT_TYPES.CREDENTIAL_THEFT then
      ("Suspicious authentication attempts indicating credential theft",
       ["Force password reset", "Enable multi-factor authentication",
        "Review access logs", "Monitor for unusual account activity"])
    else
      (defaultClassifierDescription, defaultClassifierActions)
  { type := threatType
    severity := severity
    confidence := confidence
    impactLevel := impactLevel
    description := descActions.1
    recommendedActions := descActions.2
    timestamp := now
    status := THREAT_STATUS.DETECTED }

/-- The second argument of `generateThreatAlert`, as far as it is
destructured: `{ threatType, severity, confidence }`.  `threatType` is
`Option String` because `simulateAIDetection` passes the result of
`classifyThreat`, whose threat-type field is named `type`, so the
destructured `threatType` is `undefined` there. -/
structure ThreatData where
  threatType : Option String
  severity : String
  confidence : ℚ
deriving DecidableEq, Repr

/-- `determineAffectedSystems(device, threatType)` from the source. -/
def determineAffectedSystems (device : Device) (threatType : Option String) :
    List String :=
  let base :=
    if device.type = "trafficLight" then
      ["Traffic Management System"] ++
        (if threatType = some THREAT_TYPES.COMMUNICATION_HIJACKING then
          ["Emergency Vehicle Routing"] else [])
    else if device.type = "camera" then
      ["Video Surveillance Network"] ++
        (if threatType = some THREAT_TYPES.UNAUTHORIZED_ACCESS then
          ["Facial Recognition System"] else [])
    else if device.type = "waterSensor" then
      ["Water Quality Monitoring"] ++
        (if threatType = some THREAT_TYPES.DATA_MANIPULATION then
          ["Public Health Alert System"] else [])
    else []
  base ++
    (if threatType = some THREAT_TYPES.MALWARE ∨
        threatType = some THREAT_TYPES.RANSOMWARE then
      ["City Network Infrastructure"] else [])

/-- `determinePotentialImpact(severity, deviceType)` from the source. -/
def determinePotentialImpact (severity deviceType : String) : String :=
  if severity = SEVERITY.CRITICAL then
    if deviceType = "trafficLight" then
      "Potential for traffic accidents, gridlock, and public safety hazards"
    else if deviceType = "camera" then
      "Complete surveillance blindspot, potential for undetected criminal activity"
    else if deviceType = "waterSensor" then
      "Undetected water contamination, public health emergency risk"
    else
      "Severe disruption to city services and potential safety hazards"
  else if severity = SEVERITY.HIGH then
    if deviceType = "trafficLight" then
      "Traffic disruption and increased accident risk"
    else if deviceType = "camera" then
      "Surveillance system compromise, security vulnerability"
    else if deviceType = "waterSensor" then
      "Inaccurate water quality data, delayed contamination detection"
    else
      "Significant disruption to affected systems"
  else if severity = SEVERITY.MEDIUM then
    "Moderate service disruption and potential for escalation if unaddressed"
  else
    "Minor service disruption, minimal immediate impact"

/-- `generateRecommendedActions(threatType, severity, device)` from the
source. -/
def generateRecommendedActions (threatType : Option String) (severity : String)
    (device : Device) : List String :=
  ["Isolate affected device from network",
   "Capture current device state for forensic analysis"] ++
  (if threatType = some THREAT_TYPES.UNAUTHORIZED_ACCESS then
    ["Reset all access credentials", "Review access logs for suspicious patterns"] ++
      (if severity = SEVERITY.CRITICAL ∨ severity = SEVERITY.HIGH then
        ["Implement additional authentication measures"] else [])
  else if threatType = some THREAT_TYPES.DATA_MANIPULATION then
    ["Restore data from last known good backup",
     "Verify data integrity across connected systems"] ++
      (if severity = SEVERITY.CRITICAL then
        ["Manually verify sensor readings with physical inspection"] else [])
  else if threatType = some THREAT_TYPES.FIRMWARE_TAMPERING then
    ["Reflash device with verified firmware", "Implement firmware signature verification"]
  else if threatType = some THREAT_TYPES.MALWARE ∨
      threatType = some THREAT_TYPES.RANSOMWARE then
    ["Deploy anti-malware countermeasures", "Scan connected systems for infection spread"] ++
      (if severity = SEVERITY.CRITICAL ∨ severity = SEVERITY.HIGH then
        ["Activate incident response team"] else [])
  else []) ++
  (if severity = SEVERITY.CRITICAL then
    ["Notify city emergency response coordinator",
     "Prepare public communication if services are affected"] else []) ++
  (if device.type = "trafficLight" ∧
      (severity = SEVERITY.CRITICAL ∨ severity = SEVERITY.HIGH) then
    ["Switch to manual traffic control if necessary"]
  else if device.type = "camera" ∧ threatType = some THREAT_TYPES.UNAUTHORIZED_ACCESS then
    ["Review recorded footage for evidence of tampering"]
  else [])

/-- `confidence.toFixed(0)` on a percentage, as interpolated into the
alert description. -/
def toFixed0 (q : ℚ) : String :=
  toString (⌊q + 1/2⌋ : ℤ)

/-- `generateThreatAlert(device, threatData)` from the source, with the
single risk-score `Math.random()` draw `r`, the base-36 incident-id
suffix `idSuffix`, and the wall clock `now` made explicit. -/
def generateThreatAlert (device : Device) (threatData : ThreatData)
    (r : ℚ) (idSuffix : String) (now : ℚ) : ThreatAlert :=
  let confidence := threatData.confidence
  let baseDescription :=
    "Potential " ++ optStr threatData.threatType ++ " detected on " ++
      device.name ++ " (" ++ device.type ++ ")"
  let description :=
    if confidence > 4/5 then
      baseDescription ++ " with high confidence (" ++ toFixed0 (confidence * 100) ++ "%)."
    else if confidence > 3/5 then
      baseDescription ++ " with moderate confidence (" ++ toFixed0 (confidence * 100) ++ "%)."
    else
      baseDescription ++ " with low confidence (" ++ toFixed0 (confidence * 100) ++ "%)."
  let riskScore : ℚ :=
    if threatData.severity = SEVERITY.CRITICAL then 90 + (⌊r * 10⌋ : ℤ)
    else if threatData.severity = SEVERITY.HIGH then 70 + (⌊r * 20⌋ : ℤ)
    else if threatData.severity = SEVERITY.MEDIUM then 40 + (⌊r * 30⌋ : ℤ)
    else if threatData.severity = SEVERITY.LOW then 10 + (⌊r * 30⌋ : ℤ)
    else 5 + (⌊r * 15⌋ : ℤ)
  let riskScore := min 99 (riskScore + confidence * 10)
  { id := "INC-" ++ idSuffix
    deviceId := device.id
    deviceName := device.name
    deviceType := device.type
    threatType := threatData.threatType
    type := none
    severity := threatData.severity
    confidence := confidence
    description := description
    timestamp := now
    status := THREAT_STATUS.NEW
    recommendedActions := generateRecommendedActions threatData.threatType
      threatData.severity device
    affectedSystems := determineAffectedSystems device threatData.threatType
    potentialImpact := determinePotentialImpact threatData.severity device.type
    riskScore := riskScore
    mitigationStatus := "pending"
    assignedTo := none
    relatedAlerts := [] }

/-- `simulateAIDetection(device)` from the source: behaviour analysis,
pattern-priority threat selection, classification, and alert assembly.
`a` is the anomaly-score draw of `analyzeDeviceBehavior`, `r` the
risk-score draw of `generateThreatAlert`.  The classified threat is
passed where `generateThreatAlert` destructures `threatType`, but its
field is named `type`, so the destructured value is `undefined`. -/
def simulateAIDetection (device : Device) (a r : ℚ) (idSuffix : String)
    (now : ℚ) : Option ThreatAlert :=
  let anomalyData := analyzeDeviceBehavior device a now
  if ¬ anomalyData.isAnomaly then none
  else
    let sel : String × String :=
      if anomalyData.patterns.contains "Unusual access pattern" then
        (THREAT_TYPES.UNAUTHORIZED_ACCESS, SEVERITY.HIGH)
      else if anomalyData.patterns.contains "Signal timing manipulation" then
        (THREAT_TYPES.DATA_MANIPULATION, SEVERITY.CRITICAL)
      else if anomalyData.patterns.contains "Reading fluctuation outside normal parameters" then
        (THREAT_TYPES.DATA_MANIPULATION, SEVERITY.MEDIUM)
      else if anomalyData.patterns.contains "Communication protocol violation" then
        (THREAT_TYPES.COMMUNICATION_HIJACKING, SEVERITY.HIGH)
      else if anomalyData.patterns.contains "Unexpected firmware behavior" then
        (THREAT_TYPES.FIRMWARE_TAMPERING, SEVERITY.CRITICAL)
      else
        (THREAT_TYPES.UNAUTHORIZED_ACCESS, SEVERITY.MEDIUM)
    let threatData := classifyThreat sel.1 sel.2
      (some ⟨some anomalyData.anomalyScore⟩) now
    some (generateThreatAlert device
      ⟨none, threatData.severity, threatData.confidence⟩ r idSuffix now)

/-! ## State-machine machinery for the progress claims -/

/-- Run a sequence of `simulateResponseProgress` calls; each call is a
pair of progress percentage and wall-clock reading. -/
def runProgress (p : ResponsePlan) (calls : List (ℚ × ℚ)) : ResponsePlan :=
  calls.foldl (fun pl c => simulateResponseProgress c.2 pl c.1) p

/-- The phase index `simulateResponseProgress` derives for a step:
`phases.indexOf(step.phase.toUpperCase())`. -/
def stepIdxOf (s : Step) : ℤ :=
  jsIndexOf phaseKeys (jsToUpper s.phase)

/-- A step whose `phase` field holds one of the five phase values, as
every step built by `generateResponseSteps` does. -/
def StepOk (s : Step) : Prop :=
  s.phase ∈ phaseList.map Phase.val

instance (s : Step) : Decidable (StepOk s) := by
  unfold StepOk; infer_instance

/-- The state of a plan that has been freshly started and then advanced
by non-decreasing progress calls whose derived phase index so far is
`m`: phases strictly before `m` are completed, phase `m` is in
progress, later phases are pending, and the steps match their phases. -/
def Inv (m : ℤ) (P : ResponsePlan) : Prop :=
  P.startTime ≠ none ∧
  P.status = RESPONSE_STATUS.IN_PROGRESS ∧
  0 ≤ m ∧ m ≤ 4 ∧
  (∀ ph : Phase, (P.timeline ph).status =
    (if ph.idx < m then RESPONSE_STATUS.COMPLETED
     else if ph.idx = m then RESPONSE_STATUS.IN_PROGRESS
     else RESPONSE_STATUS.PENDING)) ∧
  (∀ st ∈ P.responseSteps, StepOk st ∧ st.status =
    (if stepIdxOf st < m then RESPONSE_STATUS.COMPLETED
     else if stepIdxOf st = m then RESPONSE_STATUS.IN_PROGRESS
     else RESPONSE_STATUS.PENDING))

instance (m : ℤ) (P : ResponsePlan) : Decidable (Inv m P) := by
  unfold Inv; infer_instance

/-- A freshly started plan: the state `startResponse` leaves a
well-formed pending plan in (identification in progress, everything
else pending). -/
def FreshlyStarted (P : ResponsePlan) : Prop := Inv 0 P

instance (P : ResponsePlan) : Decidable (FreshlyStarted P) := by
  unfold FreshlyStarted; infer_instance

/-- A fully completed plan: plan status, every phase status and every
step status are `completed`. -/
def AllDone (P : ResponsePlan) : Prop :=
  P.status = RESPONSE_STATUS.COMPLETED ∧
  (∀ ph : Phase, (P.timeline ph).status = RESPONSE_STATUS.COMPLETED) ∧
  (∀ st ∈ P.responseSteps, st.status = RESPONSE_STATUS.COMPLETED)

instance (P : ResponsePlan) : Decidable (AllDone P) := by
  unfold AllDone; infer_instance

/-! ## Specification-side timeline formula (for the refinement claim)

`specEstimatedDuration` is written from the specification text, to be
compared with `createResponseTimeline` above: base minutes 15/30/45/30/60,
threat-type multipliers applied first, then the severity multiplier,
then rounding. -/

/-- Base minutes per phase, as the spec lists them. -/
def specPhaseBase : Phase → ℚ
  | .identification => 15
  | .containment => 30
  | .eradication => 45
  | .recovery => 30
  | .lessons_learned => 60

/-- Severity multiplier, as the spec lists it (only ever applied to the
four enumerated severities). -/
def specSeverityMultiplier (s : String) : ℚ :=
  if s = SEVERITY.LOW then 7/10
  else if s = SEVERITY.MEDIUM then 1
  else if s = SEVERITY.HIGH then 3/2
  else if s = SEVERITY.CRITICAL then 2
  else 0

/-- Threat-type multiplier per phase, as the spec lists it (Ransomware
and Malware denote the corresponding `THREAT_TYPES` entries). -/
def specTypeMultiplier (t : String) (ph : Phase) : ℚ :=
  if t = THREAT_TYPES.RANSOMWARE ∨ t = THREAT_TYPES.MALWARE then
    (if ph = .eradication ∨ ph = .recovery then 3/2 else 1)
  else if t = THREAT_TYPES.FIRMWARE_TAMPERING then
    (if ph = .eradication then 13/10 else if ph = .recovery then 6/5 else 1)
  else if t = THREAT_TYPES.DATA_MANIPULATION then
    (if ph = .identification then 6/5 else if ph = .eradication then 11/10 else 1)
  else 1

/-- The spec formula: type multiplier applied to the base first, then
the severity multiplier, then `Math.round`. -/
def specEstimatedDuration (t s : String) (ph : Phase) : ℚ :=
  (⌊specPhaseBase ph * specTypeMultiplier t ph * specSeverityMultiplier s + 1/2⌋ : ℤ)

/-- The (threat type, phase) pairs at which the program's binary64
arithmetic makes the rounded duration at severity low fall one short of
the exact spec formula: there the exact product is `m · 31.5` with the
double nearest 0.7 as multiplicand, which evaluates to
31.499999999999996 and rounds to 31 instead of 32. -/
def f64LowException (t : String) (ph : Phase) : Bool :=
  if t = THREAT_TYPES.RANSOMWARE ∨ t = THREAT_TYPES.MALWARE then decide (ph = Phase.recovery)
  else if t = THREAT_TYPES.FIRMWARE_TAMPERING then false
  else if t = THREAT_TYPES.DATA_MANIPULATION then false
  else decide (ph = Phase.eradication)

/-! ## Concrete example inputs used by the claim witnesses -/

/-- A fixed randomness bundle for team creation. -/
def exTeamRand : TeamRand :=
  ⟨"abcdefg", 0, fun _ => ⟨"m0", 0, 0, 0, 1, 0⟩, 0⟩

/-- A concrete threat alert (input of the round-trip claim). -/
def exAlertC1 : ThreatAlert :=
  { id := "INC-C1", deviceId := "dev-1", deviceName := "North Gate Camera",
    deviceType := "camera", threatType := some THREAT_TYPES.RANSOMWARE,
    type := none, severity := SEVERITY.CRITICAL, confidence := 9/10,
    description := "", timestamp := 0, status := THREAT_STATUS.NEW,
    recommendedActions := ["Isolate affected device from network"],
    affectedSystems := ["Video Surveillance Network"],
    potentialImpact := "", riskScore := 95, mitigationStatus := "pending",
    assignedTo := none, relatedAlerts := [] }

/-- A concrete threat alert (input of the no-throw claim). -/
def exAlertC2 : ThreatAlert :=
  { exAlertC1 with id := "INC-C2", severity := SEVERITY.LOW, confidence := 1/2 }

/-- A concrete threat alert (input of the duration-invariant claim). -/
def exAlertC3 : ThreatAlert :=
  { exAlertC1 with id := "INC-C3", severity := SEVERITY.MEDIUM }

/-- A concrete incident record (input of `initiateResponse`). -/
def exIncidentC3 : IncidentData :=
  { incidentId := "INC-C3", incidentType := THREAT_TYPES.MALWARE,
    severity := SEVERITY.HIGH, affectedSystems := [], responseTeam := none,
    startTime := none, description := some "malware on kiosk" }

/-- A freshly-started timeline for the concrete plans below. -/
def exTimeline : Timeline := fun ph =>
  { estimatedDuration := some 15
    startTime := if ph = .identification then some 0 else none
    endTime := none
    status :=
      if ph = .identification then RESPONSE_STATUS.IN_PROGRESS
      else RESPONSE_STATUS.PENDING }

/-- A pending containment step for the concrete plans below. -/
def exStep : Step :=
  { id := "step-1", description := "Isolate affected device from network",
    phase := RESPONSE_PHASES.CONTAINMENT, assignedTeam := RESPONSE_TEAMS.TIER1,
    status := RESPONSE_STATUS.PENDING, estimatedDuration := some 10,
    startTime := none, endTime := none, notes := [] }

/-- A concrete freshly started plan. -/
def exFreshPlan : ResponsePlan :=
  { id := "resp-w", incidentId := "INC-W", incidentType := some THREAT_TYPES.MALWARE,
    severity := some SEVERITY.HIGH, affectedSystems := [], responseTeam := none,
    status := RESPONSE_STATUS.IN_PROGRESS, phase := RESPONSE_PHASES.IDENTIFICATION,
    currentPhase := none, timeline := exTimeline, responseSteps := [exStep],
    startTime := some 0, estimatedCompletionTime := some 75, endTime := none,
    actualCompletionTime := none, description := none, notes := [], report := none,
    deviceId := none, deviceName := none, threatType := none, assignedTeams := none }

/-- A concrete plan whose containment phase already carries stamped
times (input of the timestamp-stability claim). -/
def exStampedPlan : ResponsePlan :=
  { exFreshPlan with
    timeline := fun ph =>
      if ph = .containment then
        { estimatedDuration := some 30, startTime := some 7, endTime := some 8,
          status := RESPONSE_STATUS.COMPLETED }
      else exTimeline ph }

/-- The single completed step of `exDonePlan`. -/
def exDoneStep : Step :=
  { exStep with
    status := RESPONSE_STATUS.COMPLETED
    startTime := some 0
    endTime := some 120000 }

/-- A concrete completed plan (input of the report claim). -/
def exDonePlan : ResponsePlan :=
  { exFreshPlan with
    status := RESPONSE_STATUS.COMPLETED
    actualCompletionTime := some 120000
    responseSteps := [exDoneStep] }

/-! ## Claim theorems -/

/-- C1: the spec claims the pipeline `createResponsePlan` /
`startResponse` / `simulateResponseProgress(plan, 100)` /
`generateResponseReport` always yields a report whose `incidentId`
equals `alert.id`.  The code cannot run this pipeline at all: its first
stage passes the alert object where `generateResponseSteps` expects an
array of action strings, so `createResponsePlan` throws a `TypeError`
for every threat alert; evaluated here at a concrete alert. -/
theorem c1_round_trip_pipeline_throws_at_first_stage :
    createResponsePlan exAlertC1 exTeamRand "resp-1" 0 =
      Except.error (JsError.typeError "recommendedActions.forEach is not a function") :=
  rfl

/-- C2 counterexample: the claim that `createResponsePlan(threatAlert)`
terminates normally and returns a plan object for every threat alert is
false at this concrete alert: the call throws a `TypeError`. -/
theorem c2_counterexample_create_response_plan_throws :
    ¬ ∃ plan, createResponsePlan exAlertC2 exTeamRand "resp-2" 5 = Except.ok plan := by
  rintro ⟨plan, h⟩
  simp [createResponsePlan, generateResponseSteps] at h

/-- C2 (amended): the Classifier operation `classifyThreat` is total and
sends unknown enum values to its default branches (unknown severity
gives impact level "unknown", unknown threat type gives the default
description and actions), but `createResponsePlan` throws a `TypeError`
for every threat-alert input, because it passes the alert object where
an array of recommended actions is expected. -/
theorem c2_no_throw_amended (t s : String) (b : Option BehaviorArg) (now : ℚ) :
    (s ∉ [SEVERITY.LOW, SEVERITY.MEDIUM, SEVERITY.HIGH, SEVERITY.CRITICAL] →
      (classifyThreat t s b now).impactLevel = "unknown") ∧
    (t ∉ [THREAT_TYPES.UNAUTHORIZED_ACCESS, THREAT_TYPES.DATA_MANIPULATION,
          THREAT_TYPES.FIRMWARE_TAMPERING, THREAT_TYPES.COMMUNICATION_HIJACKING,
          THREAT_TYPES.MALWARE, THREAT_TYPES.RANSOMWARE,
          THREAT_TYPES.DENIAL_OF_SERVICE, THREAT_TYPES.CREDENTIAL_THEFT] →
      (classifyThreat t s b now).description = defaultClassifierDescription ∧
      (classifyThreat t s b now).recommendedActions = defaultClassifierActions) ∧
    (∀ (alert : ThreatAlert) (tr : TeamRand) (rid : String) (n : ℚ),
      ∃ e, createResponsePlan alert tr rid n = Except.error e) := by
  refine ⟨?_, ?_, ?_⟩
  · intro hs
    simp only [List.mem_cons, List.mem_singleton, not_or] at hs
    obtain ⟨h1, h2, h3, h4⟩ := hs
    simp [classifyThreat, h1, h2, h3, h4]
  · intro ht
    simp only [List.mem_cons, List.mem_singleton, not_or] at ht
    obtain ⟨h1, h2, h3, h4, h5, h6, h7, h8⟩ := ht
    constructor <;>
      simp [classifyThreat, defaultClassifierDescription, defaultClassifierActions,
        h1, h2, h3, h4, h5, h6, h7, h8]
  · intro alert tr rid n
    exact ⟨JsError.typeError "recommendedActions.forEach is not a function", rfl⟩

/-- C2 witness: the amended theorem applied at concrete inputs. -/
theorem c2_no_throw_amended_witness :
    (classifyThreat "Ransomware" "extreme" none 0).impactLevel = "unknown" ∧
    (classifyThreat "Alien Invasion" "critical" none 0).description =
      defaultClassifierDescription := by
  refine ⟨(c2_no_throw_amended "Ransomware" "extreme" none 0).1 ?_,
    ((c2_no_throw_amended "Alien Invasion" "critical" none 0).2.1 ?_).1⟩ <;> decide

/-- C3: the spec claims every plan produced by a constructor satisfies
the duration-sum invariant and that the invariant is preserved.  The
code never produces such a plan: both constructors throw a `TypeError`
(each passes a non-array where `generateResponseSteps` expects the
recommended-actions array), evaluated here at concrete inputs; the
state-machine operations do preserve per-phase estimates and the
`estimatedCompletionTime` field of any plan they are given. -/
theorem c3_constructors_throw_and_operations_preserve_estimates :
    (initiateResponse exIncidentC3 "resp-3" 0 =
      Except.error (JsError.typeError "recommendedActions.forEach is not a function")) ∧
    (createResponsePlan exAlertC3 exTeamRand "resp-4" 0 =
      Except.error (JsError.typeError "recommendedActions.forEach is not a function")) ∧
    (∀ (p : ResponsePlan) (now pct : ℚ) (ph : Phase),
      (simulateResponseProgress now p pct).estimatedCompletionTime =
        p.estimatedCompletionTime ∧
      ((simulateResponseProgress now p pct).timeline ph).estimatedDuration =
        (p.timeline ph).estimatedDuration) ∧
    (∀ (p : ResponsePlan) (now : ℚ) (ph : Phase),
      (startResponse now p).estimatedCompletionTime = p.estimatedCompletionTime ∧
      ((startResponse now p).timeline ph).estimatedDuration =
        (p.timeline ph).estimatedDuration) ∧
    (∀ (p : ResponsePlan) (now : ℚ) (newPhase : String) (nt : Option String) (ph : Phase),
      (updateResponsePhase now p newPhase nt).estimatedCompletionTime =
        p.estimatedCompletionTime ∧
      ((updateResponsePhase now p newPhase nt).timeline ph).estimatedDuration =
        (p.timeline ph).estimatedDuration) := by
  refine ⟨rfl, rfl, ?_, ?_, ?_⟩
  · intro p now pct ph
    constructor
    · simp only [simulateResponseProgress]
      split_ifs <;> rfl
    · simp only [simulateResponseProgress]
      split_ifs with h
      · rfl
      all_goals
        simp only [progressEntry]
        split_ifs <;> rfl
  · intro p now ph
    refine ⟨rfl, ?_⟩
    simp only [startResponse]
    split_ifs with h
    · subst h; rfl
    · rfl
  · intro p now newPhase nt ph
    unfold updateResponsePhase
    cases nt <;> simp

/-- C6 counterexample: the claim that a supplied behavior record with
any `anomalyScore` in [0,1) yields confidence `0.5 + anomalyScore*0.4`
fails at `anomalyScore = 0`: the truthiness guard
`behavior && behavior.anomalyScore` treats 0 as absent, so the default
confidence 0.7 is kept instead of 0.5. -/
theorem c6_counterexample_zero_anomaly_score :
    (classifyThreat THREAT_TYPES.RANSOMWARE SEVERITY.CRITICAL
      (some ⟨some 0⟩) 0).confidence ≠ 1/2 + 0 * (2/5) := by
  norm_num [classifyThreat]

/-- C6 (amended): `classifyThreat` returns confidence
`0.5 + anomalyScore*0.4` whenever a behavior record with a nonzero
`anomalyScore` in (0,1) is supplied, and the fixed default 0.7 when the
behavior or its score is absent or the score is 0; its impact level is
severe/significant/moderate/minor for critical/high/medium/low and
"unknown" for any other severity; and for Ransomware at critical
severity the result has impact level "severe" and recommends
"Disconnect from network immediately". -/
theorem c6_classify_threat_amended (t s : String) (a : ℚ) (now : ℚ) :
    (0 < a → a < 1 →
      (classifyThreat t s (some ⟨some a⟩) now).confidence = 1/2 + a * (2/5)) ∧
    ((classifyThreat t s (some ⟨some 0⟩) now).confidence = 7/10) ∧
    ((classifyThreat t s (some ⟨none⟩) now).confidence = 7/10) ∧
    ((classifyThreat t s none now).confidence = 7/10) ∧
    (s = SEVERITY.CRITICAL → (classifyThreat t s none now).impactLevel = "severe") ∧
    (s = SEVERITY.HIGH → (classifyThreat t s none now).impactLevel = "significant") ∧
    (s = SEVERITY.MEDIUM → (classifyThreat t s none now).impactLevel = "moderate") ∧
    (s = SEVERITY.LOW → (classifyThreat t s none now).impactLevel = "minor") ∧
    (s ∉ [SEVERITY.LOW, SEVERITY.MEDIUM, SEVERITY.HIGH, SEVERITY.CRITICAL] →
      (classifyThreat t s none now).impactLevel = "unknown") ∧
    ((classifyThreat THREAT_TYPES.RANSOMWARE SEVERITY.CRITICAL
        (some ⟨some a⟩) now).impactLevel = "severe" ∧
      "Disconnect from network immediately" ∈
        (classifyThreat THREAT_TYPES.RANSOMWARE SEVERITY.CRITICAL
          (some ⟨some a⟩) now).recommendedActions) := by
  refine ⟨?_, ?_, ?_, ?_, ?_, ?_, ?_, ?_, ?_, ?_, ?_⟩
  · intro h0 _
    have ha : a ≠ 0 := ne_of_gt h0
    simp [classifyThreat, ha]
  · simp [classifyThreat]
  · simp [classifyThreat]
  · simp [classifyThreat]
  · rintro rfl
    simp [classifyThreat]
  · rintro rfl
    simp [classifyThreat, SEVERITY.HIGH, SEVERITY.CRITICAL]
  · rintro rfl
    simp [classifyThreat, SEVERITY.MEDIUM, SEVERITY.HIGH, SEVERITY.CRITICAL]
  · rintro rfl
    simp [classifyThreat, SEVERITY.LOW, SEVERITY.MEDIUM, SEVERITY.HIGH, SEVERITY.CRITICAL]
  · intro hs
    simp only [List.mem_cons, List.mem_singleton, not_or] at hs
    obtain ⟨h1, h2, h3, h4⟩ := hs
    simp [classifyThreat, h1, h2, h3, h4]
  · simp [classifyThreat, SEVERITY.CRITICAL]
  · simp [classifyThreat, THREAT_TYPES.RANSOMWARE, THREAT_TYPES.UNAUTHORIZED_ACCESS,
      THREAT_TYPES.DATA_MANIPULATION, THREAT_TYPES.FIRMWARE_TAMPERING,
      THREAT_TYPES.COMMUNICATION_HIJACKING, THREAT_TYPES.MALWARE]

/-- The rounder `rhe` is the identity on integers. -/
theorem rhe_intCast (n : ℤ) : rhe (n : ℚ) = n := by
  unfold rhe; simp

/-- Characterisation of `Int.log 2` by a bracketing pair of powers of
two. -/
theorem int_log_two_eq (q : ℚ) (e : ℤ) (h0 : 0 < q)
    (h1 : (2:ℚ) ^ e ≤ q) (h2 : q < (2:ℚ) ^ (e + 1)) : Int.log 2 q = e := by
  have hcast : ((2:ℕ):ℚ) = (2:ℚ) := by norm_num
  have hb : 1 < 2 := one_lt_two
  have lo : ((2:ℕ):ℚ) ^ Int.log 2 q ≤ q := Int.zpow_log_le_self hb h0
  have hi : q < ((2:ℕ):ℚ) ^ (Int.log 2 q + 1) := Int.lt_zpow_succ_log_self hb q
  rw [hcast] at lo hi
  have h2q : (1:ℚ) < 2 := one_lt_two
  have hle : Int.log 2 q < e + 1 := by
    have hlt : (2:ℚ) ^ Int.log 2 q < (2:ℚ) ^ (e + 1) := lt_of_le_of_lt lo h2
    exact (zpow_lt_zpow_iff_right₀ h2q).mp hlt
  have hge : e < Int.log 2 q + 1 := by
    have hlt : (2:ℚ) ^ e < (2:ℚ) ^ (Int.log 2 q + 1) := lt_of_le_of_lt h1 hi
    exact (zpow_lt_zpow_iff_right₀ h2q).mp hlt
  omega

/-- Evaluation rule for `f64round` on a positive value: supply the
binade exponent `e`, the rounded 53-bit significand `m` and the
resulting double `v`. -/
theorem f64round_eval (q v : ℚ) (e m : ℤ) (h0 : 0 < q)
    (h1 : (2:ℚ) ^ e ≤ q) (h2 : q < (2:ℚ) ^ (e + 1))
    (hm : rhe (q * 2 ^ (52 - e)) = m) (hv : (m : ℚ) * 2 ^ (e - 52) = v) :
    f64round q = v := by
  unfold f64round
  rw [if_neg (ne_of_gt h0), if_neg (not_lt.mpr h0.le),
    int_log_two_eq q e h0 h1 h2, hm, hv]

/-- Values whose scaled significand is an integer are exactly
representable, so `f64round` fixes them. -/
theorem f64round_exact (q : ℚ) (e n : ℤ) (h0 : 0 < q)
    (h1 : (2:ℚ) ^ e ≤ q) (h2 : q < (2:ℚ) ^ (e + 1))
    (hn : q * 2 ^ (52 - e) = (n : ℚ)) :
    f64round q = q := by
  apply f64round_eval q q e n h0 h1 h2
  · rw [hn, rhe_intCast]
  · rw [← hn, mul_assoc, ← zpow_add₀ (two_ne_zero : (2:ℚ) ≠ 0)]
    norm_num

/-! ### Concrete binary64 evaluations

Every `f64round` application reachable in `createResponseTimeline`,
evaluated once and for all.  Inexact cases carry their binade exponent
and rounded significand; exact cases carry the integer scaled
significand. -/

theorem fev0 : f64round (7 / 10 : ℚ) = 3152519739159347 / 4503599627370496 := by
  apply f64round_eval _ _ (-1) 6305039478318694 <;> norm_num [rhe]

theorem fev1 : f64round (11 / 10 : ℚ) = 2476979795053773 / 2251799813685248 := by
  apply f64round_eval _ _ (0) 4953959590107546 <;> norm_num [rhe]

theorem fev2 : f64round (6 / 5 : ℚ) = 5404319552844595 / 4503599627370496 := by
  apply f64round_eval _ _ (0) 5404319552844595 <;> norm_num [rhe]

theorem fev3 : f64round (13 / 10 : ℚ) = 5854679515581645 / 4503599627370496 := by
  apply f64round_eval _ _ (0) 5854679515581645 <;> norm_num [rhe]

theorem fev4 : f64round (47287796087390205 / 4503599627370496 : ℚ) = 21 / 2 := by
  apply f64round_eval _ _ (3) 5910974510923776 <;> norm_num [rhe]

theorem fev5 : f64round (28372677652434123 / 2251799813685248 : ℚ) = 7093169413108531 / 562949953421312 := by
  apply f64round_eval _ _ (3) 7093169413108531 <;> norm_num [rhe]

theorem fev6 : f64round (15 : ℚ) = 15 := by
  apply f64round_exact _ 3 8444249301319680 <;> norm_num

theorem fev7 : f64round (81064793292668925 / 4503599627370496 : ℚ) = 18 := by
  apply f64round_eval _ _ (4) 5066549580791808 <;> norm_num [rhe]

theorem fev8 : f64round (18 : ℚ) = 18 := by
  apply f64round_exact _ 4 5066549580791808 <;> norm_num

theorem fev9 : f64round (47287796087390205 / 2251799813685248 : ℚ) = 21 := by
  apply f64round_eval _ _ (4) 5910974510923776 <;> norm_num [rhe]

theorem fev10 : f64round (45 / 2 : ℚ) = 45 / 2 := by
  apply f64round_exact _ 4 6333186975989760 <;> norm_num

theorem fev11 : f64round (28372677652434123 / 1125899906842624 : ℚ) = 7093169413108531 / 281474976710656 := by
  apply f64round_eval _ _ (4) 7093169413108531 <;> norm_num [rhe]

theorem fev12 : f64round (27 : ℚ) = 27 := by
  apply f64round_exact _ 4 7599824371187712 <;> norm_num

theorem fev13 : f64round (30 : ℚ) = 30 := by
  apply f64round_exact _ 4 8444249301319680 <;> norm_num

theorem fev14 : f64round (141863388262170615 / 4503599627370496 : ℚ) = 8866461766385663 / 281474976710656 := by
  apply f64round_eval _ _ (4) 8866461766385663 <;> norm_num [rhe]

theorem fev15 : f64round (21962046648954076140148987474739 / 633825300114114700748351602688 : ℚ) = 1219138492878029 / 35184372088832 := by
  apply f64round_eval _ _ (5) 4876553971512116 <;> norm_num [rhe]

theorem fev16 : f64round (81064793292668925 / 2251799813685248 : ℚ) = 36 := by
  apply f64round_eval _ _ (5) 5066549580791808 <;> norm_num [rhe]

theorem fev17 : f64round (36 : ℚ) = 36 := by
  apply f64round_exact _ 5 5066549580791808 <;> norm_num

theorem fev18 : f64round (368844809481643599 / 9007199254740992 : ℚ) = 5763200148150681 / 140737488355328 := by
  apply f64round_eval _ _ (5) 5763200148150681 <;> norm_num [rhe]

theorem fev19 : f64round (47287796087390205 / 1125899906842624 : ℚ) = 42 := by
  apply f64round_eval _ _ (5) 5910974510923776 <;> norm_num [rhe]

theorem fev20 : f64round (45 : ℚ) = 45 := by
  apply f64round_exact _ 5 6333186975989760 <;> norm_num

theorem fev21 : f64round (425590164786511845 / 9007199254740992 : ℚ) = 189 / 4 := by
  apply f64round_eval _ _ (5) 6649846324789248 <;> norm_num [rhe]

theorem fev22 : f64round (111464090777419785 / 2251799813685248 : ℚ) = 6966505673588737 / 140737488355328 := by
  apply f64round_eval _ _ (5) 6966505673588737 <;> norm_num [rhe]

theorem fev23 : f64round (6966505673588737 / 140737488355328 : ℚ) = 6966505673588737 / 140737488355328 := by
  apply f64round_exact _ 5 6966505673588737 <;> norm_num

theorem fev24 : f64round (54 : ℚ) = 54 := by
  apply f64round_exact _ 5 7599824371187712 <;> norm_num

theorem fev25 : f64round (117 / 2 : ℚ) = 117 / 2 := by
  apply f64round_exact _ 5 8233143068786688 <;> norm_num

theorem fev26 : f64round (263460578201174025 / 4503599627370496 : ℚ) = 117 / 2 := by
  apply f64round_eval _ _ (5) 8233143068786688 <;> norm_num [rhe]

theorem fev27 : f64round (60 : ℚ) = 60 := by
  apply f64round_exact _ 5 8444249301319680 <;> norm_num

theorem fev28 : f64round (135 / 2 : ℚ) = 135 / 2 := by
  apply f64round_exact _ 6 4749890231992320 <;> norm_num

theorem fev29 : f64round (72 : ℚ) = 72 := by
  apply f64round_exact _ 6 5066549580791808 <;> norm_num

theorem fev30 : f64round (20899517020766211 / 281474976710656 : ℚ) = 5224879255191553 / 70368744177664 := by
  apply f64round_eval _ _ (6) 5224879255191553 <;> norm_num [rhe]

theorem fev31 : f64round (351 / 4 : ℚ) = 351 / 4 := by
  apply f64round_exact _ 6 6174857301590016 <;> norm_num

theorem fev32 : f64round (90 : ℚ) = 90 := by
  apply f64round_exact _ 6 6333186975989760 <;> norm_num

theorem fev33 : f64round (6966505673588737 / 70368744177664 : ℚ) = 6966505673588737 / 70368744177664 := by
  apply f64round_exact _ 6 6966505673588737 <;> norm_num

theorem fev34 : f64round (405 / 4 : ℚ) = 405 / 4 := by
  apply f64round_exact _ 6 7124835347988480 <;> norm_num

theorem fev35 : f64round (117 : ℚ) = 117 := by
  apply f64round_exact _ 6 8233143068786688 <;> norm_num

theorem fev36 : f64round (120 : ℚ) = 120 := by
  apply f64round_exact _ 6 8444249301319680 <;> norm_num

theorem fev37 : f64round (135 : ℚ) = 135 := by
  apply f64round_exact _ 7 4749890231992320 <;> norm_num

/-- Helper: per-phase estimated duration of the source timeline for Ransomware and Malware Infection, all enumerated severities. -/
theorem timeline_f64_RM (t s : String)
    (ht : t = THREAT_TYPES.RANSOMWARE ∨ t = THREAT_TYPES.MALWARE)
    (hs : s ∈ [SEVERITY.LOW, SEVERITY.MEDIUM, SEVERITY.HIGH, SEVERITY.CRITICAL]) :
    ∀ ph : Phase, (createResponseTimeline (some t) (some s) ph).estimatedDuration =
      some (if s = SEVERITY.LOW ∧ f64LowException t ph = true then
              specEstimatedDuration t s ph - 1
            else specEstimatedDuration t s ph) := by
  simp only [List.mem_cons, List.not_mem_nil, or_false] at hs
  rcases ht with rfl | rfl <;> rcases hs with rfl | rfl | rfl | rfl <;>
    intro ph <;> cases ph <;>
    simp [createResponseTimeline, severityMultiplier, f64mul, jround, f64LowException,
      specEstimatedDuration, specPhaseBase, specTypeMultiplier, specSeverityMultiplier,
      SEVERITY.LOW, SEVERITY.MEDIUM, SEVERITY.HIGH, SEVERITY.CRITICAL,
      THREAT_TYPES.RANSOMWARE, THREAT_TYPES.MALWARE, THREAT_TYPES.FIRMWARE_TAMPERING,
      THREAT_TYPES.DATA_MANIPULATION] <;>
    norm_num [fev0, fev1, fev2, fev3, fev4, fev5, fev6, fev7, fev8, fev9, fev10, fev11, fev12, fev13, fev14, fev15, fev16, fev17, fev18, fev19, fev20, fev21, fev22, fev23, fev24, fev25, fev26, fev27, fev28, fev29, fev30, fev31, fev32, fev33, fev34, fev35, fev36, fev37]

/-- Helper: per-phase estimated duration of the source timeline for Firmware Tampering, all enumerated severities. -/
theorem timeline_f64_FW (t s : String)
    (ht : t = THREAT_TYPES.FIRMWARE_TAMPERING)
    (hs : s ∈ [SEVERITY.LOW, SEVERITY.MEDIUM, SEVERITY.HIGH, SEVERITY.CRITICAL]) :
    ∀ ph : Phase, (createResponseTimeline (some t) (some s) ph).estimatedDuration =
      some (if s = SEVERITY.LOW ∧ f64LowException t ph = true then
              specEstimatedDuration t s ph - 1
            else specEstimatedDuration t s ph) := by
  simp only [List.mem_cons, List.not_mem_nil, or_false] at hs
  subst ht; rcases hs with rfl | rfl | rfl | rfl <;>
    intro ph <;> cases ph <;>
    simp [createResponseTimeline, severityMultiplier, f64mul, jround, f64LowException,
      specEstimatedDuration, specPhaseBase, specTypeMultiplier, specSeverityMultiplier,
      SEVERITY.LOW, SEVERITY.MEDIUM, SEVERITY.HIGH, SEVERITY.CRITICAL,
      THREAT_TYPES.RANSOMWARE, THREAT_TYPES.MALWARE, THREAT_TYPES.FIRMWARE_TAMPERING,
      THREAT_TYPES.DATA_MANIPULATION] <;>
    norm_num [fev0, fev1, fev2, fev3, fev4, fev5, fev6, fev7, fev8, fev9, fev10, fev11, fev12, fev13, fev14, fev15, fev16, fev17, fev18, fev19, fev20, fev21, fev22, fev23, fev24, fev25, fev26, fev27, fev28, fev29, fev30, fev31, fev32, fev33, fev34, fev35, fev36, fev37]

/-- Helper: per-phase estimated duration of the source timeline for Data Manipulation, all enumerated severities. -/
theorem timeline_f64_DM (t s : String)
    (ht : t = THREAT_TYPES.DATA_MANIPULATION)
    (hs : s ∈ [SEVERITY.LOW, SEVERITY.MEDIUM, SEVERITY.HIGH, SEVERITY.CRITICAL]) :
    ∀ ph : Phase, (createResponseTimeline (some t) (some s) ph).estimatedDuration =
      some (if s = SEVERITY.LOW ∧ f64LowException t ph = true then
              specEstimatedDuration t s ph - 1
            else specEstimatedDuration t s ph) := by
  simp only [List.mem_cons, List.not_mem_nil, or_false] at hs
  subst ht; rcases hs with rfl | rfl | rfl | rfl <;>
    intro ph <;> cases ph <;>
    simp [createResponseTimeline, severityMultiplier, f64mul, jround, f64LowException,
      specEstimatedDuration, specPhaseBase, specTypeMultiplier, specSeverityMultiplier,
      SEVERITY.LOW, SEVERITY.MEDIUM, SEVERITY.HIGH, SEVERITY.CRITICAL,
      THREAT_TYPES.RANSOMWARE, THREAT_TYPES.MALWARE, THREAT_TYPES.FIRMWARE_TAMPERING,
      THREAT_TYPES.DATA_MANIPULATION] <;>
    norm_num [fev0, fev1, fev2, fev3, fev4, fev5, fev6, fev7, fev8, fev9, fev10, fev11, fev12, fev13, fev14, fev15, fev16, fev17, fev18, fev19, fev20, fev21, fev22, fev23, fev24, fev25, fev26, fev27, fev28, fev29, fev30, fev31, fev32, fev33, fev34, fev35, fev36, fev37]

/-- Helper: per-phase estimated duration of the source timeline for every threat type without a type adjustment, all enumerated severities. -/
theorem timeline_f64_DEF (t s : String)
    (hR1 : t ≠ THREAT_TYPES.RANSOMWARE) (hR2 : t ≠ THREAT_TYPES.MALWARE)
    (hF : t ≠ THREAT_TYPES.FIRMWARE_TAMPERING) (hD : t ≠ THREAT_TYPES.DATA_MANIPULATION)
    (hs : s ∈ [SEVERITY.LOW, SEVERITY.MEDIUM, SEVERITY.HIGH, SEVERITY.CRITICAL]) :
    ∀ ph : Phase, (createResponseTimeline (some t) (some s) ph).estimatedDuration =
      some (if s = SEVERITY.LOW ∧ f64LowException t ph = true then
              specEstimatedDuration t s ph - 1
            else specEstimatedDuration t s ph) := by
  simp only [List.mem_cons, List.not_mem_nil, or_false] at hs
  rcases hs with rfl | rfl | rfl | rfl <;>
    intro ph <;> cases ph <;>
    simp [hR1, hR2, hF, hD, createResponseTimeline, severityMultiplier, f64mul, jround, f64LowException,
      specEstimatedDuration, specPhaseBase, specTypeMultiplier, specSeverityMultiplier,
      SEVERITY.LOW, SEVERITY.MEDIUM, SEVERITY.HIGH, SEVERITY.CRITICAL] <;>
    norm_num [fev0, fev1, fev2, fev3, fev4, fev5, fev6, fev7, fev8, fev9, fev10, fev11, fev12, fev13, fev14, fev15, fev16, fev17, fev18, fev19, fev20, fev21, fev22, fev23, fev24, fev25, fev26, fev27, fev28, fev29, fev30, fev31, fev32, fev33, fev34, fev35, fev36, fev37]

/-- Helper: for Ransomware and Malware Infection the low-severity total is strictly below the critical-severity total. -/
theorem totals_f64_RM (t : String)
    (ht : t = THREAT_TYPES.RANSOMWARE ∨ t = THREAT_TYPES.MALWARE) :
    JNum.jlt
      (calculateEstimatedCompletionTime (createResponseTimeline (some t) (some SEVERITY.LOW)))
      (calculateEstimatedCompletionTime (createResponseTimeline (some t) (some SEVERITY.CRITICAL))) := by
  rcases ht with rfl | rfl <;>
    simp [calculateEstimatedCompletionTime, phaseList, createResponseTimeline,
      severityMultiplier, f64mul, jround, jadd, JNum.jlt,
      SEVERITY.LOW, SEVERITY.MEDIUM, SEVERITY.HIGH, SEVERITY.CRITICAL,
      THREAT_TYPES.RANSOMWARE, THREAT_TYPES.MALWARE, THREAT_TYPES.FIRMWARE_TAMPERING,
      THREAT_TYPES.DATA_MANIPULATION] <;>
    norm_num [fev0, fev1, fev2, fev3, fev4, fev5, fev6, fev7, fev8, fev9, fev10, fev11, fev12, fev13, fev14, fev15, fev16, fev17, fev18, fev19, fev20, fev21, fev22, fev23, fev24, fev25, fev26, fev27, fev28, fev29, fev30, fev31, fev32, fev33, fev34, fev35, fev36, fev37]

/-- Helper: for Firmware Tampering the low-severity total is strictly below the critical-severity total. -/
theorem totals_f64_FW (t : String)
    (ht : t = THREAT_TYPES.FIRMWARE_TAMPERING) :
    JNum.jlt
      (calculateEstimatedCompletionTime (createResponseTimeline (some t) (some SEVERITY.LOW)))
      (calculateEstimatedCompletionTime (createResponseTimeline (some t) (some SEVERITY.CRITICAL))) := by
  subst ht
  simp [calculateEstimatedCompletionTime, phaseList, createResponseTimeline,
      severityMultiplier, f64mul, jround, jadd, JNum.jlt,
      SEVERITY.LOW, SEVERITY.MEDIUM, SEVERITY.HIGH, SEVERITY.CRITICAL,
      THREAT_TYPES.RANSOMWARE, THREAT_TYPES.MALWARE, THREAT_TYPES.FIRMWARE_TAMPERING,
      THREAT_TYPES.DATA_MANIPULATION] <;>
    norm_num [fev0, fev1, fev2, fev3, fev4, fev5, fev6, fev7, fev8, fev9, fev10, fev11, fev12, fev13, fev14, fev15, fev16, fev17, fev18, fev19, fev20, fev21, fev22, fev23, fev24, fev25, fev26, fev27, fev28, fev29, fev30, fev31, fev32, fev33, fev34, fev35, fev36, fev37]

/-- Helper: for Data Manipulation the low-severity total is strictly below the critical-severity total. -/
theorem totals_f64_DM (t : String)
    (ht : t = THREAT_TYPES.DATA_MANIPULATION) :
    JNum.jlt
      (calculateEstimatedCompletionTime (createResponseTimeline (some t) (some SEVERITY.LOW)))
      (calculateEstimatedCompletionTime (createResponseTimeline (some t) (some SEVERITY.CRITICAL))) := by
  subst ht
  simp [calculateEstimatedCompletionTime, phaseList, createResponseTimeline,
      severityMultiplier, f64mul, jround, jadd, JNum.jlt,
      SEVERITY.LOW, SEVERITY.MEDIUM, SEVERITY.HIGH, SEVERITY.CRITICAL,
      THREAT_TYPES.RANSOMWARE, THREAT_TYPES.MALWARE, THREAT_TYPES.FIRMWARE_TAMPERING,
      THREAT_TYPES.DATA_MANIPULATION] <;>
    norm_num [fev0, fev1, fev2, fev3, fev4, fev5, fev6, fev7, fev8, fev9, fev10, fev11, fev12, fev13, fev14, fev15, fev16, fev17, fev18, fev19, fev20, fev21, fev22, fev23, fev24, fev25, fev26, fev27, fev28, fev29, fev30, fev31, fev32, fev33, fev34, fev35, fev36, fev37]

/-- Helper: for every threat type without a type adjustment the low-severity total is strictly below the critical-severity total. -/
theorem totals_f64_DEF (t : String)
    (hR1 : t ≠ THREAT_TYPES.RANSOMWARE) (hR2 : t ≠ THREAT_TYPES.MALWARE)
    (hF : t ≠ THREAT_TYPES.FIRMWARE_TAMPERING) (hD : t ≠ THREAT_TYPES.DATA_MANIPULATION) :
    JNum.jlt
      (calculateEstimatedCompletionTime (createResponseTimeline (some t) (some SEVERITY.LOW)))
      (calculateEstimatedCompletionTime (createResponseTimeline (some t) (some SEVERITY.CRITICAL))) := by
    simp [hR1, hR2, hF, hD, calculateEstimatedCompletionTime, phaseList, createResponseTimeline,
      severityMultiplier, f64mul, jround, jadd, JNum.jlt,
      SEVERITY.LOW, SEVERITY.MEDIUM, SEVERITY.HIGH, SEVERITY.CRITICAL] <;>
    norm_num [fev0, fev1, fev2, fev3, fev4, fev5, fev6, fev7, fev8, fev9, fev10, fev11, fev12, fev13, fev14, fev15, fev16, fev17, fev18, fev19, fev20, fev21, fev22, fev23, fev24, fev25, fev26, fev27, fev28, fev29, fev30, fev31, fev32, fev33, fev34, fev35, fev36, fev37]

/-- C5 counterexample: the claimed formula round(base · typeMult ·
severityMult) fails on the program.  At threat type Unauthorized Access
and severity low the eradication duration is computed in binary64 as
45 · 0.7 = 31.499999999999996, which rounds to 31, while the exact spec
formula gives round(31.5) = 32. -/
theorem c5_counterexample_low_eradication_rounding :
    (createResponseTimeline (some THREAT_TYPES.UNAUTHORIZED_ACCESS) (some SEVERITY.LOW)
        Phase.eradication).estimatedDuration = some 31 ∧
    specEstimatedDuration THREAT_TYPES.UNAUTHORIZED_ACCESS SEVERITY.LOW Phase.eradication = 32 := by
  constructor
  · simp [createResponseTimeline, severityMultiplier, f64mul, jround,
      SEVERITY.LOW, THREAT_TYPES.UNAUTHORIZED_ACCESS, THREAT_TYPES.RANSOMWARE,
      THREAT_TYPES.MALWARE, THREAT_TYPES.FIRMWARE_TAMPERING, THREAT_TYPES.DATA_MANIPULATION]
    norm_num [fev0, fev14]
  · simp [specEstimatedDuration, specPhaseBase, specTypeMultiplier, specSeverityMultiplier,
      SEVERITY.LOW, THREAT_TYPES.UNAUTHORIZED_ACCESS, THREAT_TYPES.RANSOMWARE,
      THREAT_TYPES.MALWARE, THREAT_TYPES.FIRMWARE_TAMPERING, THREAT_TYPES.DATA_MANIPULATION]
    norm_num

/-- C5 (corrected): `createResponseTimeline` computes each phase
duration from base minutes 15/30/45/30/60 with the threat-type
multipliers applied first (Ransomware and Malware scale eradication and
recovery by 1.5, Firmware Tampering scales eradication by 1.3 and
recovery by 1.2, Data Manipulation scales identification by 1.2 and
eradication by 1.1), then the severity multiplier (low 0.7, medium 1.0,
high 1.5, critical 2.0), then rounding — except that the binary64
products through the double nearest 0.7 make the result fall one below
the exact formula at severity low for the recovery phase of
Ransomware/Malware and the eradication phase of unadjusted threat
types; and for every threat type the low-severity total is strictly
below the critical-severity total. -/
theorem c5_create_response_timeline_corrected (t s : String)
    (hs : s ∈ [SEVERITY.LOW, SEVERITY.MEDIUM, SEVERITY.HIGH, SEVERITY.CRITICAL]) :
    (∀ ph : Phase, (createResponseTimeline (some t) (some s) ph).estimatedDuration =
      some (if s = SEVERITY.LOW ∧ f64LowException t ph = true then
              specEstimatedDuration t s ph - 1
            else specEstimatedDuration t s ph)) ∧
    JNum.jlt
      (calculateEstimatedCompletionTime (createResponseTimeline (some t) (some SEVERITY.LOW)))
      (calculateEstimatedCompletionTime (createResponseTimeline (some t) (some SEVERITY.CRITICAL))) := by
  by_cases hR : t = THREAT_TYPES.RANSOMWARE ∨ t = THREAT_TYPES.MALWARE
  · exact ⟨timeline_f64_RM t s hR hs, totals_f64_RM t hR⟩
  · by_cases hF : t = THREAT_TYPES.FIRMWARE_TAMPERING
    · exact ⟨timeline_f64_FW t s hF hs, totals_f64_FW t hF⟩
    · by_cases hD : t = THREAT_TYPES.DATA_MANIPULATION
      · exact ⟨timeline_f64_DM t s hD hs, totals_f64_DM t hD⟩
      · simp only [not_or] at hR
        exact ⟨timeline_f64_DEF t s hR.1 hR.2 hF hD hs,
          totals_f64_DEF t hR.1 hR.2 hF hD⟩

/-- C5 witness: the corrected theorem applied at threat type Ransomware
and severity high. -/
theorem c5_create_response_timeline_corrected_witness :
    (∀ ph : Phase,
      (createResponseTimeline (some "Ransomware") (some "high") ph).estimatedDuration =
      some (if "high" = SEVERITY.LOW ∧ f64LowException "Ransomware" ph = true then
              specEstimatedDuration "Ransomware" "high" ph - 1
            else specEstimatedDuration "Ransomware" "high" ph)) ∧
    JNum.jlt
      (calculateEstimatedCompletionTime
        (createResponseTimeline (some "Ransomware") (some SEVERITY.LOW)))
      (calculateEstimatedCompletionTime
        (createResponseTimeline (some "Ransomware") (some SEVERITY.CRITICAL))) :=
  c5_create_response_timeline_corrected "Ransomware" "high" (by simp [SEVERITY.HIGH])

/-- C7: `generateResponseReport` returns the "Incomplete" stub carrying
the computed completion percentage for every plan whose status is not
`completed`, and for every completed plan whose completion time is not
earlier than its start time it returns a full report whose
`totalResponseTimeMinutes` is the rounded elapsed minutes and is
nonnegative. -/
theorem c7_report_incomplete_guard (p : ResponsePlan) :
    (p.status ≠ RESPONSE_STATUS.COMPLETED →
      generateResponseReport p =
        ResponseReport.incompleteStub p.incidentId
          "Cannot generate report for incomplete response"
          (calculateCompletionPercentage p)) ∧
    (∀ s e : ℚ, p.status = RESPONSE_STATUS.COMPLETED → p.startTime = some s →
      p.actualCompletionTime = some e → s ≤ e →
      ∃ r : FullReport, generateResponseReport p = ResponseReport.completedReport r ∧
        r.totalResponseTimeMinutes = some ((⌊(e - s) / 60000 + 1/2⌋ : ℤ) : ℚ) ∧
        (0 : ℚ) ≤ ((⌊(e - s) / 60000 + 1/2⌋ : ℤ) : ℚ)) := by
  constructor
  · intro h
    simp [generateResponseReport, h]
  · intro s e hst hS hA hle
    have hfl : (0 : ℚ) ≤ ((⌊(e - s) / 60000 + 1/2⌋ : ℤ) : ℚ) := by
      have hdiv : (0:ℚ) ≤ (e - s) / 60000 := div_nonneg (by linarith) (by norm_num)
      exact_mod_cast Int.le_floor.mpr (by push_cast; linarith)
    simp only [generateResponseReport, hst, ne_eq, not_true_eq_false, if_false, reduceIte]
    refine ⟨_, rfl, ?_, hfl⟩
    simp [hS, hA, dateOf, jsub, jdiv, jround]

/-- C7 witness: the theorem applied to a concrete completed plan and a
concrete in-progress plan. -/
theorem c7_report_incomplete_guard_witness :
    (generateResponseReport exDonePlan).status = "Completed" ∧
    (generateResponseReport exFreshPlan).status = "Incomplete" := by
  constructor
  · obtain ⟨r, hr, -, -⟩ :=
      (c7_report_incomplete_guard exDonePlan).2 0 120000 rfl rfl rfl (by norm_num)
    rw [hr]
    rfl
  · rw [(c7_report_incomplete_guard exFreshPlan).1 (by decide)]
    rfl

/-- C8: for every device, threat-data record with an enumerated
severity and confidence in [0,1], and risk-score random draw in [0,1),
the `riskScore` of `generateThreatAlert` lies within [5, 99]. -/
theorem c8_risk_score_bounds (device : Device) (td : ThreatData) (r : ℚ)
    (idS : String) (now : ℚ)
    (hs : td.severity ∈ [SEVERITY.LOW, SEVERITY.MEDIUM, SEVERITY.HIGH, SEVERITY.CRITICAL])
    (hc0 : 0 ≤ td.confidence) (hc1 : td.confidence ≤ 1) (hr0 : 0 ≤ r) (hr1 : r < 1) :
    5 ≤ (generateThreatAlert device td r idS now).riskScore ∧
    (generateThreatAlert device td r idS now).riskScore ≤ 99 := by
  simp only [List.mem_cons, List.not_mem_nil, or_false] at hs
  have f30a : (0:ℚ) ≤ ((⌊r * 30⌋ : ℤ) : ℚ) := by
    exact_mod_cast Int.le_floor.mpr (by push_cast; positivity)
  have f10a : (0:ℚ) ≤ ((⌊r * 10⌋ : ℤ) : ℚ) := by
    exact_mod_cast Int.le_floor.mpr (by push_cast; positivity)
  have f20a : (0:ℚ) ≤ ((⌊r * 20⌋ : ℤ) : ℚ) := by
    exact_mod_cast Int.le_floor.mpr (by push_cast; positivity)
  rcases hs with h | h | h | h <;>
    simp only [generateThreatAlert, h, SEVERITY.LOW, SEVERITY.MEDIUM, SEVERITY.HIGH,
      SEVERITY.CRITICAL, String.reduceEq, if_true, if_false, reduceIte] <;>
    constructor
  · exact le_min (by norm_num) (by linarith)
  · exact min_le_left _ _
  · exact le_min (by norm_num) (by linarith)
  · exact min_le_left _ _
  · exact le_min (by norm_num) (by linarith)
  · exact min_le_left _ _
  · exact le_min (by norm_num) (by linarith)
  · exact min_le_left _ _

/-- A concrete device for the detection witnesses. -/
def exDevice : Device := ⟨"dev-9", "River Sensor", "waterSensor"⟩

/-- C8 witness: the theorem applied at a concrete device, threat data
and random draw. -/
theorem c8_risk_score_bounds_witness :
    5 ≤ (generateThreatAlert exDevice ⟨some "Ransomware", "low", 1⟩ (99/100) "S" 0).riskScore ∧
    (generateThreatAlert exDevice ⟨some "Ransomware", "low", 1⟩ (99/100) "S" 0).riskScore ≤ 99 :=
  c8_risk_score_bounds exDevice ⟨some "Ransomware", "low", 1⟩ (99/100) "S" 0
    (by simp [SEVERITY.LOW]) (by norm_num) (by norm_num) (by norm_num) (by norm_num)

/-- Helper: the alert's severity field is the severity of the supplied
threat data. -/
theorem generateThreatAlert_severity (device : Device) (td : ThreatData) (r : ℚ)
    (idS : String) (now : ℚ) :
    (generateThreatAlert device td r idS now).severity = td.severity := rfl

/-- Helper: the classified threat's severity field is the supplied
severity. -/
theorem classifyThreat_severity (t s : String) (b : Option BehaviorArg) (now : ℚ) :
    (classifyThreat t s b now).severity = s := rfl

/-- C10: whenever `simulateAIDetection` returns an alert, that alert's
severity is medium, high or critical — never low — because every entry
of the pattern-priority lookup, including the default, assigns only
those severities. -/
theorem c10_detection_severity_never_low (device : Device) (a r : ℚ)
    (idS : String) (now : ℚ) :
    (simulateAIDetection device a r idS now).map ThreatAlert.severity ∈
      [none, some SEVERITY.MEDIUM, some SEVERITY.HIGH, some SEVERITY.CRITICAL] ∧
    (simulateAIDetection device a r idS now).map ThreatAlert.severity ≠
      some SEVERITY.LOW := by
  simp only [simulateAIDetection]
  split_ifs <;>
    simp [Option.map_some', generateThreatAlert_severity, classifyThreat_severity,
      SEVERITY.LOW, SEVERITY.MEDIUM, SEVERITY.HIGH, SEVERITY.CRITICAL]

/-- C6 witness: the amended theorem applied at concrete inputs. -/
theorem c6_classify_threat_amended_witness :
    (classifyThreat "Ransomware" "critical" (some ⟨some (1/2)⟩) 0).confidence =
      1/2 + (1/2) * (2/5) ∧
    (classifyThreat "Ransomware" "critical" none 0).impactLevel = "severe" := by
  refine ⟨(c6_classify_threat_amended "Ransomware" "critical" (1/2) 0).1 ?_ ?_,
    (c6_classify_threat_amended "Ransomware" "critical" (1/2) 0).2.2.2.2.1 rfl⟩ <;>
    norm_num

/-! ## Progress state-machine lemmas (for the monotonicity claim) -/

/-- Helper: the step-phase index of a phase value string is the phase's
position. -/
theorem jsIndexOf_phase_val : ∀ ph : Phase,
    jsIndexOf phaseKeys (jsToUpper (Phase.val ph)) = ph.idx := by
  intro ph
  cases ph <;> rfl

/-- Helper: every phase index lies in 0..4. -/
theorem phase_idx_bounds : ∀ ph : Phase, 0 ≤ ph.idx ∧ ph.idx ≤ 4 := by
  intro ph
  cases ph <;> exact ⟨by decide, by decide⟩

/-- Helper: the derived phase index is nonnegative for nonnegative
percentages. -/
theorem progressPhaseIndex_nonneg (pct : ℚ) (h : 0 ≤ pct) :
    0 ≤ progressPhaseIndex pct := by
  unfold progressPhaseIndex
  split_ifs with h5
  · norm_num
  · exact Int.floor_nonneg.mpr (by positivity)

/-- Helper: the derived phase index is clamped to at most 4. -/
theorem progressPhaseIndex_le_four (pct : ℚ) : progressPhaseIndex pct ≤ 4 := by
  unfold progressPhaseIndex
  split_ifs with h5 <;> omega

/-- Helper: the derived phase index is monotone in the percentage. -/
theorem progressPhaseIndex_mono {p q : ℚ} (h : p ≤ q) :
    progressPhaseIndex p ≤ progressPhaseIndex q := by
  unfold progressPhaseIndex
  have hf : (⌊p / 100 * 5⌋ : ℤ) ≤ ⌊q / 100 * 5⌋ := by
    apply Int.floor_le_floor
    have : p / 100 ≤ q / 100 := by linarith
    linarith
  split_ifs <;> omega

/-- Helper: the step update never changes a step's phase. -/
theorem progressStep_phase (now pct : ℚ) (idx : ℤ) (s : Step) :
    (progressStep now pct idx s).phase = s.phase := by
  simp only [progressStep]
  split_ifs <;> rfl

/-- Helper: the step update never changes a step's derived index. -/
theorem stepIdxOf_progressStep (now pct : ℚ) (idx : ℤ) (s : Step) :
    stepIdxOf (progressStep now pct idx s) = stepIdxOf s := by
  unfold stepIdxOf
  rw [progressStep_phase]

/-- Helper: the no-op guard of `simulateResponseProgress` is open on a
started in-progress plan. -/
theorem progress_guard_open (P : ResponsePlan) (hst : P.startTime ≠ none)
    (hstat : P.status = RESPONSE_STATUS.IN_PROGRESS) :
    ¬(P.startTime = none ∨ P.status = RESPONSE_STATUS.COMPLETED) := by
  push_neg
  refine ⟨hst, ?_⟩
  rw [hstat]
  decide

/-- Helper: the explicit form of a progress call with percentage below
100 on an active plan. -/
theorem progress_eq_lt (P : ResponsePlan) (now pct : ℚ)
    (hg : ¬(P.startTime = none ∨ P.status = RESPONSE_STATUS.COMPLETED))
    (h1 : ¬ pct ≥ 100) :
    simulateResponseProgress now P pct =
      { P with
        currentPhase := phaseValAt (progressPhaseIndex pct)
        timeline := fun ph =>
          progressEntry now pct (progressPhaseIndex pct) ph (P.timeline ph)
        responseSteps := P.responseSteps.map (progressStep now pct (progressPhaseIndex pct))
        notes := P.notes ++
          [⟨now, "System",
            "Response progress at " ++ toString pct ++ "%. Current phase: " ++
              optStr (phaseValAt (progressPhaseIndex pct)) ++ "."⟩] } := by
  unfold simulateResponseProgress
  rw [if_neg hg, if_neg h1]

/-- Helper: the explicit form of a progress call with percentage at
least 100 on an active plan. -/
theorem progress_eq_100 (P : ResponsePlan) (now pct : ℚ)
    (hg : ¬(P.startTime = none ∨ P.status = RESPONSE_STATUS.COMPLETED))
    (h1 : pct ≥ 100) :
    simulateResponseProgress now P pct =
      { P with
        currentPhase := phaseValAt (progressPhaseIndex pct)
        timeline := fun ph =>
          progressEntry now pct (progressPhaseIndex pct) ph (P.timeline ph)
        responseSteps := P.responseSteps.map (progressStep now pct (progressPhaseIndex pct))
        status := RESPONSE_STATUS.COMPLETED
        actualCompletionTime := some now
        notes := P.notes ++
          [⟨now, "System",
            "Incident response completed successfully. All phases finished."⟩] } := by
  unfold simulateResponseProgress
  rw [if_neg hg, if_pos h1]

/-- Helper: a progress call with percentage in [0,100) moves the
invariant from index `m` to the derived index. -/
theorem inv_progress_lt (m : ℤ) (P : ResponsePlan) (now pct : ℚ)
    (hInv : Inv m P) (h0 : 0 ≤ pct) (h1 : pct < 100)
    (hm : m ≤ progressPhaseIndex pct) :
    Inv (progressPhaseIndex pct) (simulateResponseProgress now P pct) := by
  obtain ⟨hst, hstat, hm0, hm4, htl, hsteps⟩ := hInv
  have hg := progress_guard_open P hst hstat
  rw [progress_eq_lt P now pct hg (not_le.mpr h1)]
  refine ⟨hst, hstat, progressPhaseIndex_nonneg pct h0, progressPhaseIndex_le_four pct, ?_, ?_⟩
  · intro ph
    have hPh := htl ph
    show (progressEntry now pct (progressPhaseIndex pct) ph (P.timeline ph)).status = _
    unfold progressEntry
    by_cases hc1 : ph.idx ≤ progressPhaseIndex pct
    · by_cases hc2 : ph.idx = progressPhaseIndex pct ∧ pct < 100
      · rw [if_pos hc1, if_pos hc2]
        rw [if_neg (by omega : ¬ ph.idx < progressPhaseIndex pct), if_pos hc2.1]
      · rw [if_pos hc1, if_neg hc2]
        have hlt : ph.idx < progressPhaseIndex pct := by
          rcases lt_or_eq_of_le hc1 with h | h
          · exact h
          · exact absurd ⟨h, h1⟩ hc2
        rw [if_pos hlt]
    · rw [if_neg hc1]
      have hgt : progressPhaseIndex pct < ph.idx := not_le.mp hc1
      rw [hPh, if_neg (by omega), if_neg (by omega), if_neg (by omega), if_neg (by omega)]
  · intro st' hst'
    obtain ⟨st, hmem, rfl⟩ := List.mem_map.mp hst'
    obtain ⟨hok, hss⟩ := hsteps st hmem
    have hokk : StepOk (progressStep now pct (progressPhaseIndex pct) st) := by
      unfold StepOk
      rw [progressStep_phase]
      exact hok
    refine ⟨hokk, ?_⟩
    rw [stepIdxOf_progressStep]
    simp only [progressStep]
    by_cases hc1 : stepIdxOf st < progressPhaseIndex pct
    · rw [if_pos (show jsIndexOf phaseKeys (jsToUpper st.phase) < progressPhaseIndex pct from hc1)]
      rw [if_pos hc1]
    · rw [if_neg (show ¬ jsIndexOf phaseKeys (jsToUpper st.phase) < progressPhaseIndex pct from hc1)]
      by_cases hc2 : stepIdxOf st = progressPhaseIndex pct
      · rw [if_pos (show jsIndexOf phaseKeys (jsToUpper st.phase) = progressPhaseIndex pct from hc2)]
        rw [if_neg (show ¬ pct = 100 from by linarith), if_neg (by omega), if_pos hc2]
      · rw [if_neg (show ¬ jsIndexOf phaseKeys (jsToUpper st.phase) = progressPhaseIndex pct from hc2)]
        rw [hss, if_neg (by omega), if_neg (by omega), if_neg (by omega), if_neg (by omega)]

/-- Helper: a progress call at exactly 100 completes every phase, every
step and the plan. -/
theorem progress_100_alldone (m : ℤ) (P : ResponsePlan) (now : ℚ) (hInv : Inv m P) :
    AllDone (simulateResponseProgress now P 100) := by
  obtain ⟨hst, hstat, hm0, hm4, htl, hsteps⟩ := hInv
  have hg := progress_guard_open P hst hstat
  rw [progress_eq_100 P now 100 hg (le_refl 100)]
  have hidx : progressPhaseIndex 100 = 4 := by
    unfold progressPhaseIndex
    norm_num
  refine ⟨rfl, ?_, ?_⟩
  · intro ph
    show (progressEntry now 100 (progressPhaseIndex 100) ph (P.timeline ph)).status = _
    rw [hidx]
    unfold progressEntry
    rw [if_pos (phase_idx_bounds ph).2, if_neg (by norm_num : ¬(ph.idx = 4 ∧ (100:ℚ) < 100))]
  · intro st' hst'
    obtain ⟨st, hmem, rfl⟩ := List.mem_map.mp hst'
    obtain ⟨hok, hss⟩ := hsteps st hmem
    obtain ⟨ph, hphmem, hval⟩ := List.mem_map.mp hok
    have hbounds : 0 ≤ stepIdxOf st ∧ stepIdxOf st ≤ 4 := by
      unfold stepIdxOf
      rw [← hval, jsIndexOf_phase_val]
      exact phase_idx_bounds ph
    simp only [progressStep, hidx]
    by_cases hc1 : jsIndexOf phaseKeys (jsToUpper st.phase) < 4
    · rw [if_pos hc1]
    · rw [if_neg hc1]
      have hc2 : jsIndexOf phaseKeys (jsToUpper st.phase) = 4 := by
        have := hbounds.2
        unfold stepIdxOf at this
        omega
      rw [if_pos hc2]
      simp

/-- Helper: progress calls are no-ops on fully completed plans. -/
theorem progress_noop_of_alldone (P : ResponsePlan) (now pct : ℚ) (h : AllDone P) :
    simulateResponseProgress now P pct = P := by
  unfold simulateResponseProgress
  rw [if_pos (Or.inr h.1)]

/-- Helper: unfolding one call of a run. -/
theorem runProgress_cons (P : ResponsePlan) (c : ℚ × ℚ) (rest : List (ℚ × ℚ)) :
    runProgress P (c :: rest) = runProgress (simulateResponseProgress c.2 P c.1) rest := rfl

/-- Helper: a run followed by one more call. -/
theorem runProgress_append_single (P : ResponsePlan) (pre : List (ℚ × ℚ)) (c : ℚ × ℚ) :
    runProgress P (pre ++ [c]) =
      simulateResponseProgress c.2 (runProgress P pre) c.1 := by
  unfold runProgress
  rw [List.foldl_append]
  rfl

/-- Helper: runs are no-ops on fully completed plans. -/
theorem runProgress_noop_of_alldone (P : ResponsePlan) (calls : List (ℚ × ℚ))
    (h : AllDone P) : runProgress P calls = P := by
  induction calls with
  | nil => rfl
  | cons c rest ih =>
      rw [runProgress_cons, progress_noop_of_alldone P c.2 c.1 h]
      exact ih

/-- Helper: after any sorted, bounded run from an invariant state the
plan is either fully completed or in the invariant state of the largest
derived index seen. -/
theorem runProgress_inv (calls : List (ℚ × ℚ)) (m : ℤ) (P : ResponsePlan)
    (hInv : Inv m P)
    (hsort : (calls.map Prod.fst).Sorted (· ≤ ·))
    (hbound : ∀ c ∈ calls, 0 ≤ c.1 ∧ c.1 ≤ 100)
    (hm : ∀ c ∈ calls, m ≤ progressPhaseIndex c.1) :
    AllDone (runProgress P calls) ∨
      ∃ m', Inv m' (runProgress P calls) ∧ m ≤ m' ∧
        (∀ c ∈ calls, progressPhaseIndex c.1 ≤ m') ∧
        (m' = m ∨ ∃ c ∈ calls, m' = progressPhaseIndex c.1) := by
  induction calls generalizing m P with
  | nil =>
      right
      refine ⟨m, ?_, le_refl m, ?_, Or.inl rfl⟩
      · simpa [runProgress] using hInv
      · intro c hc
        exact absurd hc (List.not_mem_nil c)
  | cons c rest ih =>
      have hc := hbound c (List.mem_cons_self c rest)
      rw [List.map_cons, List.sorted_cons] at hsort
      by_cases h100 : c.1 = 100
      · left
        have hAD : AllDone (simulateResponseProgress c.2 P c.1) := by
          rw [h100]
          exact progress_100_alldone m P c.2 hInv
        rw [runProgress_cons, runProgress_noop_of_alldone _ _ hAD]
        exact hAD
      · have hlt : c.1 < 100 := lt_of_le_of_ne hc.2 h100
        have hInv1 : Inv (progressPhaseIndex c.1) (simulateResponseProgress c.2 P c.1) :=
          inv_progress_lt m P c.2 c.1 hInv hc.1 hlt (hm c (List.mem_cons_self c rest))
        have hcross : ∀ x ∈ rest, c.1 ≤ x.1 := by
          intro x hx
          exact hsort.1 x.1 (List.mem_map.mpr ⟨x, hx, rfl⟩)
        have hmono : ∀ x ∈ rest, progressPhaseIndex c.1 ≤ progressPhaseIndex x.1 :=
          fun x hx => progressPhaseIndex_mono (hcross x hx)
        rcases ih (progressPhaseIndex c.1) _ hInv1 hsort.2
            (fun x hx => hbound x (List.mem_cons_of_mem c hx)) hmono with
          hAD | ⟨m2, hI2, hle2, hub2, hsrc2⟩
        · left
          rwa [runProgress_cons]
        · right
          refine ⟨m2, by rwa [runProgress_cons],
            le_trans (hm c (List.mem_cons_self c rest)) hle2, ?_, ?_⟩
          · intro x hx
            rcases List.mem_cons.mp hx with rfl | hx'
            · exact hle2
            · exact hub2 x hx'
          · rcases hsrc2 with rfl | ⟨x, hx, hxx⟩
            · exact Or.inr ⟨c, List.mem_cons_self c rest, rfl⟩
            · exact Or.inr ⟨x, List.mem_cons_of_mem c hx, hxx⟩

/-- C4: on a freshly started plan, for every sequence of
`simulateResponseProgress` calls with non-decreasing percentages in
[0,100], the set of phases whose timeline status is `completed` never
shrinks from one call to the next, and immediately after any call with
percentage 100 every phase status, every step status and the plan
status are `completed`. -/
theorem c4_progress_monotone_and_complete (P0 : ResponsePlan)
    (pre rest : List (ℚ × ℚ)) (c : ℚ × ℚ)
    (hfresh : FreshlyStarted P0)
    (hsort : ((pre ++ c :: rest).map Prod.fst).Sorted (· ≤ ·))
    (hbound : ∀ x ∈ pre ++ c :: rest, 0 ≤ x.1 ∧ x.1 ≤ 100) :
    (∀ ph : Phase,
      ((runProgress P0 pre).timeline ph).status = RESPONSE_STATUS.COMPLETED →
      ((runProgress P0 (pre ++ [c])).timeline ph).status = RESPONSE_STATUS.COMPLETED) ∧
    (c.1 = 100 → AllDone (runProgress P0 (pre ++ [c]))) := by
  have hcmem : c ∈ pre ++ c :: rest := List.mem_append_right pre (List.mem_cons_self c rest)
  have hcb := hbound c hcmem
  rw [List.map_append] at hsort
  have hsortpre : (pre.map Prod.fst).Sorted (· ≤ ·) := (List.pairwise_append.mp hsort).1
  have hcrossall := (List.pairwise_append.mp hsort).2.2
  have hcross : ∀ x ∈ pre, x.1 ≤ c.1 := by
    intro x hx
    exact hcrossall x.1 (List.mem_map.mpr ⟨x, hx, rfl⟩) c.1
      (List.mem_map.mpr ⟨c, List.mem_cons_self c rest, rfl⟩)
  have hboundpre : ∀ x ∈ pre, 0 ≤ x.1 ∧ x.1 ≤ 100 := by
    intro x hx
    exact hbound x (List.mem_append_left _ hx)
  rcases runProgress_inv pre 0 P0 hfresh hsortpre hboundpre
      (fun x hx => progressPhaseIndex_nonneg x.1 (hboundpre x hx).1) with
    hAD | ⟨m', hI, -, hub, hsrc⟩
  · have hnoop : runProgress P0 (pre ++ [c]) = runProgress P0 pre := by
      rw [runProgress_append_single, progress_noop_of_alldone _ _ _ hAD]
    constructor
    · intro ph h
      rwa [hnoop]
    · intro _
      rw [hnoop]
      exact hAD
  · have hm'le : m' ≤ progressPhaseIndex c.1 := by
      rcases hsrc with rfl | ⟨x, hx, rfl⟩
      · exact progressPhaseIndex_nonneg c.1 hcb.1
      · exact progressPhaseIndex_mono (hcross x hx)
    by_cases h100 : c.1 = 100
    · have hAD1 : AllDone (runProgress P0 (pre ++ [c])) := by
        rw [runProgress_append_single, h100]
        exact progress_100_alldone m' _ c.2 hI
      exact ⟨fun ph _ => hAD1.2.1 ph, fun _ => hAD1⟩
    · have hlt : c.1 < 100 := lt_of_le_of_ne hcb.2 h100
      have hI1 : Inv (progressPhaseIndex c.1)
          (simulateResponseProgress c.2 (runProgress P0 pre) c.1) :=
        inv_progress_lt m' _ c.2 c.1 hI hcb.1 hlt hm'le
      constructor
      · intro ph hcomp
        have hidxlt : ph.idx < m' := by
          have hp := hI.2.2.2.2.1 ph
          by_contra hno
          rw [hp, if_neg hno] at hcomp
          split_ifs at hcomp <;> exact absurd hcomp (by decide)
        rw [runProgress_append_single]
        have hp1 := hI1.2.2.2.2.1 ph
        rw [hp1, if_pos (lt_of_lt_of_le hidxlt hm'le)]
      · intro h
        exact absurd h h100

/-- C4 witness: the theorem applied to a concrete freshly started plan
and the call sequence 50% then 100%. -/
theorem c4_progress_monotone_and_complete_witness :
    AllDone (runProgress exFreshPlan [((50:ℚ), (1:ℚ)), (100, 2)]) :=
  (c4_progress_monotone_and_complete exFreshPlan [((50:ℚ), (1:ℚ))] [] ((100:ℚ), (2:ℚ))
    (by decide)
    (by simp [List.sorted_cons]; norm_num)
    (by
      intro x hx
      simp only [List.cons_append, List.nil_append, List.mem_cons, List.not_mem_nil,
        or_false] at hx
      rcases hx with rfl | rfl <;> norm_num)).2 rfl

/-- Helper: the timeline written by `startResponse`, entry by entry. -/
theorem startResponse_timeline (now : ℚ) (p : ResponsePlan) (ph : Phase) :
    (startResponse now p).timeline ph =
      if ph = .identification then
        { p.timeline .identification with
          status := RESPONSE_STATUS.IN_PROGRESS
          startTime := some now }
      else p.timeline ph := rfl

/-- Helper: the steps written by `startResponse`. -/
theorem startResponse_steps (now : ℚ) (p : ResponsePlan) :
    (startResponse now p).responseSteps =
      p.responseSteps.map fun s =>
        if s.phase = RESPONSE_PHASES.IDENTIFICATION then
          { s with status := RESPONSE_STATUS.IN_PROGRESS, startTime := some now }
        else s := rfl

/-- Helper: `startResponse` on a well-formed pending plan produces
exactly the freshly-started state assumed by the monotonicity claim. -/
theorem startResponse_freshlyStarted (P : ResponsePlan) (now : ℚ)
    (hpend : ∀ ph : Phase, (P.timeline ph).status = RESPONSE_STATUS.PENDING)
    (hsteps : ∀ st ∈ P.responseSteps, StepOk st ∧ st.status = RESPONSE_STATUS.PENDING) :
    FreshlyStarted (startResponse now P) := by
  refine ⟨by simp [startResponse], rfl, by norm_num, by norm_num, ?_, ?_⟩
  · intro ph
    rw [startResponse_timeline]
    by_cases h : ph = .identification
    · subst h
      rw [if_pos rfl]
      simp [Phase.idx]
    · rw [if_neg h, hpend ph]
      have hb := phase_idx_bounds ph
      have hne : ph.idx ≠ 0 := by
        cases ph
        · exact absurd rfl h
        all_goals decide
      rw [if_neg (by omega), if_neg hne]
  · intro st' hst'
    rw [startResponse_steps] at hst'
    obtain ⟨st, hmem, rfl⟩ := List.mem_map.mp hst'
    obtain ⟨hok, hpend'⟩ := hsteps st hmem
    obtain ⟨ph, hphmem, hval⟩ := List.mem_map.mp hok
    have hidx : stepIdxOf st = ph.idx := by
      unfold stepIdxOf
      rw [← hval, jsIndexOf_phase_val]
    by_cases h : st.phase = RESPONSE_PHASES.IDENTIFICATION
    · have hph : ph = .identification := by
        cases ph <;> simp_all [Phase.val, RESPONSE_PHASES.IDENTIFICATION,
          RESPONSE_PHASES.CONTAINMENT, RESPONSE_PHASES.ERADICATION,
          RESPONSE_PHASES.RECOVERY, RESPONSE_PHASES.LESSONS_LEARNED]
      rw [if_pos h]
      refine ⟨by unfold StepOk; exact hok, ?_⟩
      have hidx2 :
          stepIdxOf { st with status := RESPONSE_STATUS.IN_PROGRESS, startTime := some now } =
            stepIdxOf st := rfl
      rw [hidx2, hidx, hph]
      simp [Phase.idx]
    · have hph : ph ≠ .identification := by
        intro hcon
        subst hcon
        exact h hval.symm
      rw [if_neg h]
      refine ⟨hok, ?_⟩
      have hne : ph.idx ≠ 0 := by
        cases ph
        · exact absurd rfl hph
        all_goals decide
      have hb := phase_idx_bounds ph
      rw [hidx, if_neg (by omega), if_neg hne]
      exact hpend'

/-- C9 counterexample: the claim that a phase's `startTime`, once set,
is never overwritten fails for `startResponse`: a second call re-stamps
the identification phase's `startTime` unconditionally, shown here on a
concrete plan started at time 1 and started again at time 2. -/
theorem c9_counterexample_double_start_overwrites :
    ((startResponse 2 (startResponse 1 exFreshPlan)).timeline .identification).startTime ≠
      ((startResponse 1 exFreshPlan).timeline .identification).startTime := by
  simp [startResponse]

/-- C9 (amended): `simulateResponseProgress` and `updateResponsePhase`
never clear or overwrite a phase's stamped `startTime` or `endTime`
(`updateResponsePhase` leaves the timeline untouched), and
`startResponse` never touches any `endTime` or a non-identification
`startTime`; but `startResponse` stamps the identification phase's
`startTime` with the current time unconditionally, so a repeated start
overwrites it. -/
theorem c9_timestamps_stable_amended (p : ResponsePlan) (now pct : ℚ)
    (newPhase : String) (nt : Option String) (ph : Phase) (s1 s2 : ℚ) :
    ((p.timeline ph).startTime = some s1 →
      ((simulateResponseProgress now p pct).timeline ph).startTime = some s1) ∧
    ((p.timeline ph).endTime = some s2 →
      ((simulateResponseProgress now p pct).timeline ph).endTime = some s2) ∧
    ((updateResponsePhase now p newPhase nt).timeline = p.timeline) ∧
    (((startResponse now p).timeline ph).endTime = (p.timeline ph).endTime) ∧
    (ph ≠ .identification →
      ((startResponse now p).timeline ph).startTime = (p.timeline ph).startTime) ∧
    (((startResponse now p).timeline .identification).startTime = some now) := by
  refine ⟨?_, ?_, ?_, ?_, ?_, ?_⟩
  · intro h
    by_cases hg : p.startTime = none ∨ p.status = RESPONSE_STATUS.COMPLETED
    · unfold simulateResponseProgress
      rw [if_pos hg]
      exact h
    · by_cases h1 : pct ≥ 100
      · rw [progress_eq_100 p now pct hg h1]
        show (progressEntry now pct (progressPhaseIndex pct) ph (p.timeline ph)).startTime = _
        unfold progressEntry
        split_ifs <;> simp [h]
      · rw [progress_eq_lt p now pct hg h1]
        show (progressEntry now pct (progressPhaseIndex pct) ph (p.timeline ph)).startTime = _
        unfold progressEntry
        split_ifs <;> simp [h]
  · intro h
    by_cases hg : p.startTime = none ∨ p.status = RESPONSE_STATUS.COMPLETED
    · unfold simulateResponseProgress
      rw [if_pos hg]
      exact h
    · by_cases h1 : pct ≥ 100
      · rw [progress_eq_100 p now pct hg h1]
        show (progressEntry now pct (progressPhaseIndex pct) ph (p.timeline ph)).endTime = _
        unfold progressEntry
        split_ifs <;> simp [h]
      · rw [progress_eq_lt p now pct hg h1]
        show (progressEntry now pct (progressPhaseIndex pct) ph (p.timeline ph)).endTime = _
        unfold progressEntry
        split_ifs <;> simp [h]
  · unfold updateResponsePhase
    cases nt <;> rfl
  · rw [startResponse_timeline]
    split_ifs with h
    · subst h
      rfl
    · rfl
  · intro h
    rw [startResponse_timeline, if_neg h]
  · rw [startResponse_timeline, if_pos rfl]

/-- C9 witness: the amended theorem applied to a concrete plan whose
containment phase carries stamped times. -/
theorem c9_timestamps_stable_amended_witness :
    ((simulateResponseProgress 3 exStampedPlan 50).timeline .containment).startTime = some 7 ∧
    ((simulateResponseProgress 3 exStampedPlan 50).timeline .containment).endTime = some 8 ∧
    ((updateResponsePhase 3 exStampedPlan "containment" none).timeline =
      exStampedPlan.timeline) ∧
    ((startResponse 3 exStampedPlan).timeline .containment).endTime =
      (exStampedPlan.timeline .containment).endTime ∧
    ((startResponse 3 exStampedPlan).timeline .containment).startTime =
      (exStampedPlan.timeline .containment).startTime ∧
    ((startResponse 3 exStampedPlan).timeline .identification).startTime = some 3 := by
  obtain ⟨h1, h2, h3, h4, h5, h6⟩ :=
    c9_timestamps_stable_amended exStampedPlan 3 50 "containment" none .containment 7 8
  exact ⟨h1 (by decide), h2 (by decide), h3, h4, h5 (by decide), h6⟩

end CyberSmartCity
